import Mathlib

/-!
# bitrise/print.go: the console report renderer

A shallow embedding of `src/bitrise/print.go` and proofs about it.

* Go strings are byte sequences (`GoString`); `len` is `List.length`.
* Output goes to two sinks, standard output (`fmt.Println`) and the logrus
  logger; a call of a render operation is modelled by the list of the
  events it produces, in order, together with the way the call ends
  (`Run`): it returns, it exits the process through `log.Fatal`, or it
  stops with a run-time panic (a slice expression out of range).
* `fmt.Sprintf` with a constant format string is modelled by the
  concatenation the format describes.  `log.Infof(content)` passes a computed
  string as the format, with no operands: the model interprets it with
  `Sprintf0`, the operand-free case of the formatter of package `fmt`.
* `TimeToFormattedSeconds` is not part of `print.go`; the operations that use
  it take it as a parameter.  `time.Now()` is a parameter as well.
-/

namespace Bitrise

/-! ## Strings -/

/-- A Go string: a sequence of bytes. -/
abbrev GoString := List UInt8

/-- The bytes of an ASCII string literal. -/
def ascii (s : String) : GoString := s.toList.map (fun c => c.toNat.toUInt8)

/-- The byte 0x25, the percent sign. -/
def pct : UInt8 := 0x25

/-- The byte 0x1b, ESC. -/
def esc : UInt8 := 0x1b

/-- Go's `strings.Repeat("-", n)`. -/
def dashes (n : Nat) : GoString := List.replicate n 0x2d

/-! ## Package fmt -/

/-- The decimal digits of a natural number, as `%d` prints them. -/
def fmtNat (n : Nat) : GoString := (Nat.toDigits 10 n).map (fun c => c.toNat.toUInt8)

/-- The text `%d` prints for an integer. -/
def fmtInt (i : Int) : GoString :=
  if i < 0 then 0x2d :: fmtNat i.natAbs else fmtNat i.natAbs

/-- A flag byte of a format directive: one of `#`, `0`, `+`, `-` and space. -/
def isFlag (c : UInt8) : Bool :=
  c == 0x23 || c == 0x30 || c == 0x2b || c == 0x2d || c == 0x20

/-- A decimal digit byte. -/
def isDigit (c : UInt8) : Bool := 0x30 ≤ c.toNat && c.toNat ≤ 0x39

/-- A byte in the range `lo..hi`. -/
def inRange (lo hi : Nat) (c : UInt8) : Bool := lo ≤ c.toNat && c.toNat ≤ hi

/-- An ASCII byte, below `utf8.RuneSelf`. -/
def isAscii (c : UInt8) : Bool := c.toNat < 0x80

/-- The flags loop of `doPrintf`: skips the flag bytes. -/
def skipFlags : GoString → GoString
  | [] => []
  | c :: r => if isFlag c then skipFlags r else c :: r

/-- The digit loop of `parsenum` of package fmt, started with the number read so far: the
result is `none` when the number grows past the limit of 1e6 (the parser then gives up and
jumps to the end of the text it was given), and otherwise the number, whether a digit was
read, and the text left. -/
def parsenumLoop (num : Nat) (isnum : Bool) : GoString → Option (Nat × Bool × GoString)
  | [] => some (num, isnum, [])
  | c :: r =>
    if isDigit c then
      if num > 1000000 then none
      else parsenumLoop (num * 10 + (c.toNat - 0x30)) true r
    else some (num, isnum, c :: r)

/-- The function `parsenum` on the rest of the format: whether a number is present, and the
text after it. -/
def parsenum (s : GoString) : Bool × GoString :=
  match parsenumLoop 0 false s with
  | none => (false, [])
  | some (_, isnum, r) => (isnum, r)

/-- The text after the first `]`, when there is one, and whether the bytes before it are a
well-formed number (`parsenum` reads all of them). -/
def closeBracket (pre : GoString) : GoString → Option (Bool × GoString)
  | [] => none
  | c :: r =>
    if c == 0x5d then
      some ((match parsenumLoop 0 false pre.reverse with
             | some (_, isnum, []) => isnum
             | _ => false), r)
    else closeBracket (c :: pre) r

/-- The function `argNumber` of package fmt with no operands, on the rest of the format:
`(found, bracket, rest)`.  `bracket` tells that the text starts with `[`; no index is ever
in range, so a bracket always spoils the directive (`goodArgNum = false`). -/
def argNumber (s : GoString) : Bool × Bool × GoString :=
  match s with
  | [] => (false, false, [])
  | c :: r =>
    if c == 0x5b then
      if (c :: r).length < 3 then (false, true, r)
      else
        match closeBracket [] r with
        | some (ok, rest) => (ok, true, rest)
        | none => (false, true, r)
    else (false, false, c :: r)

/-- The function `utf8.DecodeRuneInString` followed by the encoding `writeRune` does: the
bytes written for the verb and how many bytes of the format it takes.  An ill-formed
sequence is one byte wide and is written as U+FFFD. -/
def verbBytes : GoString → GoString × Nat
  | [] => ([], 0)
  | [b0] => if isAscii b0 then ([b0], 1) else ([0xef, 0xbf, 0xbd], 1)
  | [b0, b1] =>
    if isAscii b0 then ([b0], 1)
    else if inRange 0xc2 0xdf b0 && inRange 0x80 0xbf b1 then ([b0, b1], 2)
    else ([0xef, 0xbf, 0xbd], 1)
  | [b0, b1, b2] =>
    if isAscii b0 then ([b0], 1)
    else if inRange 0xc2 0xdf b0 && inRange 0x80 0xbf b1 then ([b0, b1], 2)
    else if (b0 == 0xe0 && inRange 0xa0 0xbf b1 || b0 == 0xed && inRange 0x80 0x9f b1
        || (inRange 0xe1 0xec b0 || inRange 0xee 0xef b0) && inRange 0x80 0xbf b1)
        && inRange 0x80 0xbf b2 then ([b0, b1, b2], 3)
    else ([0xef, 0xbf, 0xbd], 1)
  | b0 :: b1 :: b2 :: b3 :: _ =>
    if isAscii b0 then ([b0], 1)
    else if inRange 0xc2 0xdf b0 && inRange 0x80 0xbf b1 then ([b0, b1], 2)
    else if (b0 == 0xe0 && inRange 0xa0 0xbf b1 || b0 == 0xed && inRange 0x80 0x9f b1
        || (inRange 0xe1 0xec b0 || inRange 0xee 0xef b0) && inRange 0x80 0xbf b1)
        && inRange 0x80 0xbf b2 then ([b0, b1, b2], 3)
    else if (b0 == 0xf0 && inRange 0x90 0xbf b1 || b0 == 0xf4 && inRange 0x80 0x8f b1
        || inRange 0xf1 0xf3 b0 && inRange 0x80 0xbf b1)
        && inRange 0x80 0xbf b2 && inRange 0x80 0xbf b3 then ([b0, b1, b2, b3], 4)
    else ([0xef, 0xbf, 0xbd], 1)

/-- The last step of a directive: the verb.  Without a verb the formatter writes
`%!(NOVERB)`; `%` writes a percent sign; any other verb has no operand to print and writes
`%!v(BADINDEX)` after a spoilt argument index and `%!v(MISSING)` otherwise. -/
def verbStep (good : Bool) (s : GoString) : GoString × GoString :=
  match s with
  | [] => (ascii "%!(NOVERB)", [])
  | c :: r =>
    if c == pct then ([pct], r)
    else
      let v := verbBytes (c :: r)
      (ascii "%!" ++ v.1 ++ (if good then ascii "(MISSING)" else ascii "(BADINDEX)"),
        (c :: r).drop v.2)

/-- The precision of a directive, after its `.`: `(written, good, afterIndex, rest)`. -/
def precStep (good afterIndex : Bool) (s : GoString) : GoString × Bool × Bool × GoString :=
  let good1 := good && !afterIndex
  let a := argNumber s
  let good2 := good1 && !a.2.1
  match a.2.2 with
  | c :: r =>
    if c == 0x2a then (ascii "%!(BADPREC)", good2, false, r)
    else ([], good2, a.1, (parsenum (c :: r)).2)
  | [] => ([], good2, a.1, [])

/-- One directive of the format, with no operands: the text after the `%` is read as flags,
argument index, width, precision, argument index and verb, as `doPrintf` of package fmt
does.  The result is the text written and the rest of the format. -/
def directive (s : GoString) : GoString × GoString :=
  let a := argNumber (skipFlags s)
  let good0 := !a.2.1
  -- width
  let w : GoString × Bool × Bool × GoString :=
    match a.2.2 with
    | c :: r =>
      if c == 0x2a then (ascii "%!(BADWIDTH)", good0, false, r)
      else
        let n := parsenum (c :: r)
        ([], good0 && !(a.1 && n.1), a.1, n.2)
    | [] => ([], good0, a.1, [])
  -- precision: a `.` that is followed by at least one more byte (`i+1 < end`)
  let p : GoString × Bool × Bool × GoString :=
    match w.2.2.2 with
    | c :: r =>
      if c == 0x2e && !r.isEmpty then precStep w.2.1 w.2.2.1 r
      else ([], w.2.1, w.2.2.1, c :: r)
    | [] => ([], w.2.1, w.2.2.1, [])
  -- argument index after the precision
  let b : Bool × GoString :=
    if p.2.2.1 then (p.2.1, p.2.2.2)
    else
      let a2 := argNumber p.2.2.2
      (p.2.1 && !a2.2.1, a2.2.2)
  let v := verbStep b.1 b.2
  (w.1 ++ p.1 ++ v.1, v.2)

/-- The loop of `doPrintf` with no operands.  Bytes other than `%` are copied; at a `%` the
directive is interpreted, and the bytes it took are skipped (`skip` counts them). -/
def doPrintf : Nat → GoString → GoString
  | _, [] => []
  | skip + 1, _ :: r => doPrintf skip r
  | 0, c :: r =>
    if c == pct then
      let d := directive r
      d.1 ++ doPrintf (r.length - d.2.length) r
    else c :: doPrintf 0 r

/-- Go's `fmt.Sprintf(format)` with no operands. -/
def Sprintf0 (format : GoString) : GoString := doPrintf 0 format

/-! ## Package colorstring -/

/-- The reset sequence `ESC[0m` that ends a coloured text. -/
def resetColor : GoString := esc :: ascii "[0m"

/-- The function `addColor` of colorstring: the colour sequence, the text, the reset. -/
def addColor (color msg : GoString) : GoString := color ++ msg ++ resetColor

/-- The colour sequence `ESC[31;1m`. -/
def redColor : GoString := esc :: ascii "[31;1m"

/-- The colour sequence `ESC[32;1m`. -/
def greenColor : GoString := esc :: ascii "[32;1m"

/-- The colour sequence `ESC[33;1m`. -/
def yellowColor : GoString := esc :: ascii "[33;1m"

/-- The colour sequence `ESC[34;1m`. -/
def blueColor : GoString := esc :: ascii "[34;1m"

/-- The function `colorstring.Red`. -/
def Red (s : GoString) : GoString := addColor redColor s

/-- The function `colorstring.Green`. -/
def Green (s : GoString) : GoString := addColor greenColor s

/-- The function `colorstring.Yellow`. -/
def Yellow (s : GoString) : GoString := addColor yellowColor s

/-- The function `colorstring.Blue`. -/
def Blue (s : GoString) : GoString := addColor blueColor s

/-! ## The output sinks -/

/-- The levels of the logger that `print.go` uses. -/
inductive Level where
  | info
  | warn
  | error
  | fatal
  deriving DecidableEq, Repr

/-- One output event: a line written by `fmt.Println`, or a message handed to the logger at
a level. -/
inductive Event where
  | println (line : GoString)
  | log (lvl : Level) (msg : GoString)
  deriving DecidableEq, Repr

/-- How a call ends: it returns to its caller, the process exits (`log.Fatal` calls
`os.Exit(1)` after writing its message), or the goroutine panics. -/
inductive Ending where
  | returned
  | exited
  | panicked
  deriving DecidableEq, Repr

/-- The observable behaviour of a call: the events in order, and the ending. -/
structure Run where
  out : List Event
  ending : Ending
  deriving DecidableEq, Repr

/-- The call `log.Info(s)` with one string. -/
def logInfo (s : GoString) : Event := Event.log Level.info s

/-- The call `log.Infof(format)` with no operands: the message is the format, formatted. -/
def logInfof0 (format : GoString) : Event := Event.log Level.info (Sprintf0 format)

/-- Go's slice expression `s[0:n]`: `none` stands for the panic "slice bounds out of
range". -/
def slicePrefix (s : GoString) (n : Int) : Option GoString :=
  if 0 ≤ n ∧ n ≤ (s.length : Int) then some (s.take n.toNat) else none

/-! ## print.go -/

/-- The constant `stepRunSummaryBoxMaxWidthChars`. -/
def stepRunSummaryBoxMaxWidthChars : Nat := 50

/-- The constant `StepRunResultCodeSuccess`. -/
def StepRunResultCodeSuccess : Int := 0

/-- The constant `StepRunResultCodeFailed`. -/
def StepRunResultCodeFailed : Int := 1

/-- The constant `StepRunResultCodeFailedSkippable`. -/
def StepRunResultCodeFailedSkippable : Int := 2

/-- The constant `StepRunResultCodeSkipped`. -/
def StepRunResultCodeSkipped : Int := 3

/-- The constant `StepRunResultCodeSkippedWithRunIf`. -/
def StepRunResultCodeSkippedWithRunIf : Int := 4

/-- The text of `fmt.Sprintf("| (%d) %s |", idx, title)`. -/
def runningStepLine (idx : Int) (title : GoString) : GoString :=
  ascii "| (" ++ fmtInt idx ++ ascii ") " ++ title ++ ascii " |"

/-- The width check of `PrintRunningStep` (the `if` of its body): the content line after it.
A line wider than the box has its title cut to `newLength` bytes and given the ellipsis;
`none` stands for the panic of the slice expression `title[0:newLength]`. -/
def fitRunningStep (title : GoString) (idx : Int) : Option GoString :=
  let content := runningStepLine idx title
  if content.length > stepRunSummaryBoxMaxWidthChars then
    let dif : Int := (content.length : Int) - (stepRunSummaryBoxMaxWidthChars : Int)
    let newLength : Int := (title.length : Int) - dif - 3
    (slicePrefix title newLength).map (fun t => runningStepLine idx (t ++ ascii "..."))
  else some content

/-- The function `PrintRunningStep`. -/
def PrintRunningStep (title : GoString) (idx : Int) : Run :=
  match fitRunningStep title idx with
  | none => ⟨[], Ending.panicked⟩
  | some content =>
    let sep := dashes content.length
    ⟨[logInfo sep, logInfof0 content, logInfo sep], Ending.returned⟩

/-- The text of `fmt.Sprintf("|...| %s | %s |", title, runTime)`. -/
def summaryPlaceholder (title runTime : GoString) : GoString :=
  ascii "|...| " ++ title ++ ascii " | " ++ runTime ++ ascii " |"

/-- The text of `fmt.Sprintf("|...| %s | %s | exit code: %d |", title, runTime, exitCode)`. -/
def summaryPlaceholderExit (title runTime : GoString) (exitCode : Int) : GoString :=
  ascii "|...| " ++ title ++ ascii " | " ++ runTime ++ ascii " | exit code: "
    ++ fmtInt exitCode ++ ascii " |"

/-- The placeholder content of `PrintStepSummary`, whose length the width is measured on:
the second format replaces the first for the two failed result codes. -/
def summaryMeasured (title runTime : GoString) (resultCode exitCode : Int) : GoString :=
  if resultCode = StepRunResultCodeFailed ∨ resultCode = StepRunResultCodeFailedSkippable then
    summaryPlaceholderExit title runTime exitCode
  else summaryPlaceholder title runTime

/-- The text of `fmt.Sprintf("| %s | %s | %s |", icon, title, runTime)`. -/
def summaryLine (icon title runTime : GoString) : GoString :=
  ascii "| " ++ icon ++ ascii " | " ++ title ++ ascii " | " ++ runTime ++ ascii " |"

/-- The text of `fmt.Sprintf("| %s | %s | %s | exit code: %d |", icon, title, runTime,
exitCode)`. -/
def summaryLineExit (icon title runTime : GoString) (exitCode : Int) : GoString :=
  ascii "| " ++ icon ++ ascii " | " ++ title ++ ascii " | " ++ runTime ++ ascii " | exit code: "
    ++ fmtInt exitCode ++ ascii " |"

/-- The icon of a successful step, U+2705. -/
def iconSuccess : GoString := [0xe2, 0x9c, 0x85]

/-- The icon of a failed step, U+274C. -/
def iconFailed : GoString := [0xe2, 0x9d, 0x8c]

/-- The icon of a skipped step, U+27A1. -/
def iconSkipped : GoString := [0xe2, 0x9e, 0xa1]

/-- The width check of `PrintStepSummary` (the second `if` of its body): the title and the
placeholder content after it.  A content wider than the box has the title cut to `newLength`
bytes and given the ellipsis; `none` stands for the panic of the slice expression
`title[0:newLength]`. -/
def fitSummary (title runTime : GoString) (resultCode exitCode : Int) :
    Option (GoString × GoString) :=
  let content := summaryMeasured title runTime resultCode exitCode
  if content.length > stepRunSummaryBoxMaxWidthChars then
    let dif : Int := (content.length : Int) - (stepRunSummaryBoxMaxWidthChars : Int)
    let newLength : Int := (title.length : Int) - dif - 3
    (slicePrefix title newLength).map
      (fun t => (t ++ ascii "...", summaryMeasured (t ++ ascii "...") runTime resultCode exitCode))
  else some (title, content)

/-- The `switch` of `PrintStepSummary`: the content line of a recognised result code, and
`none` for the default case. -/
def summaryShown (title runTime : GoString) (resultCode exitCode : Int) : Option GoString :=
  if resultCode = StepRunResultCodeSuccess then
    some (summaryLine iconSuccess (Green title) runTime)
  else if resultCode = StepRunResultCodeFailed then
    some (summaryLineExit iconFailed (Red title) runTime exitCode)
  else if resultCode = StepRunResultCodeFailedSkippable then
    some (summaryLineExit iconFailed (Yellow title) runTime exitCode)
  else if resultCode = StepRunResultCodeSkipped
      ∨ resultCode = StepRunResultCodeSkippedWithRunIf then
    some (summaryLine iconSkipped (Blue title) runTime)
  else none

/-- The function `PrintStepSummary`.  The duration formatter `TimeToFormattedSeconds` is
defined outside `print.go` and is a parameter; durations are counted in nanoseconds. -/
def PrintStepSummary (TimeToFormattedSeconds : Int → GoString → GoString)
    (title : GoString) (resultCode : Int) (duration : Int) (exitCode : Int) : Run :=
  let runTime := TimeToFormattedSeconds duration (ascii " sec")
  match fitSummary title runTime resultCode exitCode with
  | none => ⟨[], Ending.panicked⟩
  | some (title, content) =>
    let sep := dashes content.length
    match summaryShown title runTime resultCode exitCode with
    | none => ⟨[Event.log Level.error (ascii "Unkown result code")], Ending.returned⟩
    | some content =>
      ⟨[logInfo sep, logInfof0 content, logInfo sep, Event.println []], Ending.returned⟩

/-- The type `models.StepRunResultsModel`, with the fields `print.go` reads: the name of the
step and its error, `none` for a nil error. -/
structure StepRunResultsModel where
  StepName : GoString
  Error : Option GoString
  deriving DecidableEq, Repr

/-- The type `models.BuildRunResultsModel`, with the fields `print.go` reads.  Times are
counted in nanoseconds. -/
structure BuildRunResultsModel where
  StartTime : Int
  SuccessSteps : List StepRunResultsModel
  FailedSteps : List StepRunResultsModel
  FailedSkippableSteps : List StepRunResultsModel
  SkippedSteps : List StepRunResultsModel
  deriving DecidableEq, Repr

/-- Go's `t.Sub(u)`: the difference as a `time.Duration`, which saturates at the least and
the greatest 64-bit value. -/
def timeSub (t u : Int) : Int :=
  if t - u > 9223372036854775807 then 9223372036854775807
  else if t - u < -9223372036854775808 then -9223372036854775808
  else t - u

/-- The function `PrintSummary`.  `now` is the value of `time.Now()`. -/
def PrintSummary (TimeToFormattedSeconds : Int → GoString → GoString) (now : Int)
    (buildRunResults : BuildRunResultsModel) : Run :=
  let successStepCount := buildRunResults.SuccessSteps.length
  let failedStepCount := buildRunResults.FailedSteps.length
  let failedSkippableStepCount := buildRunResults.FailedSkippableSteps.length
  let skippedStepCount := buildRunResults.SkippedSteps.length
  let totalStepCount :=
    successStepCount + failedStepCount + failedSkippableStepCount + skippedStepCount
  let runTime := timeSub now buildRunResults.StartTime
  let head : List Event :=
    [Event.println [], logInfo (ascii "==> Summary:"),
     logInfo (ascii "Total run time: " ++ TimeToFormattedSeconds runTime (ascii " seconds"))]
  if totalStepCount > 0 then
    let counts : List Event :=
      [logInfo (ascii "Out of " ++ fmtNat totalStepCount ++ ascii " steps:")]
      ++ (if successStepCount > 0 then
            [logInfo (Green (ascii " * " ++ fmtNat successStepCount ++ ascii " was successful"))]
          else [])
      ++ (if failedStepCount > 0 then
            [logInfo (Red (ascii " * " ++ fmtNat failedStepCount ++ ascii " failed"))]
          else [])
      ++ (if failedSkippableStepCount > 0 then
            [logInfo (Yellow (ascii " * " ++ fmtNat failedSkippableStepCount
              ++ ascii " failed but was marked as skippable and"))]
          else [])
      ++ (if skippedStepCount > 0 then
            [logInfo (Blue (ascii " * " ++ fmtNat skippedStepCount ++ ascii " was skipped"))]
          else [])
      ++ [Event.println []]
    if failedStepCount > 0 then
      ⟨head ++ counts
        ++ [Event.log Level.fatal (ascii "FINISHED but a couple of steps failed - Ouch")],
        Ending.exited⟩
    else
      ⟨head ++ counts ++ [logInfo (ascii "DONE - Congrats!!")]
        ++ (if failedSkippableStepCount > 0 then
              [Event.log Level.warn (ascii "P.S.: a couple of non imporatant steps failed")]
            else []),
        Ending.returned⟩
  else ⟨head, Ending.returned⟩


/-! ## Reading the output -/

/-- A byte other than the percent sign. -/
def notPct (c : UInt8) : Bool := c != pct

/-- A byte other than ESC. -/
def notEsc (c : UInt8) : Bool := c != esc

/-- A byte of plain text: ASCII, and neither ESC nor the percent sign. -/
def plainByte (c : UInt8) : Bool := isAscii c && notEsc c && notPct c

/-- Plain text: every byte is ASCII and none is ESC or a percent sign. -/
def plainText (s : GoString) : Prop := s.all plainByte = true

instance (s : GoString) : Decidable (plainText s) :=
  inferInstanceAs (Decidable (s.all plainByte = true))

/-- Removes colour escape sequences from a line: a sequence runs from an ESC byte to the
next `m`.  The flag tells that the scanner is inside a sequence. -/
def stripColorFrom : Bool → GoString → GoString
  | _, [] => []
  | false, c :: r => if c == esc then stripColorFrom true r else c :: stripColorFrom false r
  | true, c :: r => if c == 0x6d then stripColorFrom false r else stripColorFrom true r

/-- A line with its colour escape sequences removed. -/
def stripColor (s : GoString) : GoString := stripColorFrom false s

/-- The number of characters of a UTF-8 text: the bytes that are not continuation bytes. -/
def runeCount (s : GoString) : Nat := s.countP (fun c => !inRange 0x80 0xbf c)

/-- The icon `PrintStepSummary` shows for a recognised result code. -/
def resultIcon (resultCode : Int) : GoString :=
  if resultCode = StepRunResultCodeSuccess then iconSuccess
  else if resultCode = StepRunResultCodeFailed ∨ resultCode = StepRunResultCodeFailedSkippable
  then iconFailed
  else iconSkipped

/-- The content line of a step summary as it reads without colour: the icon, the title, the
run time and, for the two failed result codes, the exit code. -/
def summaryUncoloured (title runTime : GoString) (resultCode exitCode : Int) : GoString :=
  if resultCode = StepRunResultCodeFailed ∨ resultCode = StepRunResultCodeFailedSkippable then
    summaryLineExit (resultIcon resultCode) title runTime exitCode
  else summaryLine (resultIcon resultCode) title runTime


/-- The count line of a bucket in the summary: nothing for an empty bucket, and otherwise one
info line, in the colour of the bucket, with the size of the bucket and its text. -/
def bucketLine (colour : GoString → GoString) (n : Nat) (text : GoString) : List Event :=
  if n = 0 then [] else [logInfo (colour (ascii " * " ++ fmtNat n ++ text))]

/-- The number of steps of an aggregate: the sum of the sizes of its four buckets. -/
def stepTotal (r : BuildRunResultsModel) : Nat :=
  r.SuccessSteps.length + r.FailedSteps.length + r.FailedSkippableSteps.length
    + r.SkippedSteps.length

/-- The fatal report of `PrintSummary`. -/
def fatalVerdict : Event :=
  Event.log Level.fatal (ascii "FINISHED but a couple of steps failed - Ouch")

/-- The success verdict of `PrintSummary`. -/
def successVerdict : Event := Event.log Level.info (ascii "DONE - Congrats!!")

/-- The warning of `PrintSummary` about failed steps that are skippable. -/
def skippableWarning : Event :=
  Event.log Level.warn (ascii "P.S.: a couple of non imporatant steps failed")

/-- An aggregate with the given bucket sizes, started at time 0; the steps are unnamed. -/
def sampleResults (success failed failedSkippable skipped : Nat) : BuildRunResultsModel :=
  ⟨0, List.replicate success ⟨[], none⟩, List.replicate failed ⟨[], none⟩,
    List.replicate failedSkippable ⟨[], none⟩, List.replicate skipped ⟨[], none⟩⟩

/-! ## print.go, continued -/

/-- The function `PrintRunningWorkflow`. -/
def PrintRunningWorkflow (title : GoString) : Run :=
  ⟨[Event.println [],
    logInfo (Blue (ascii "Running workflow (" ++ title ++ ascii ")")),
    Event.println []], Ending.returned⟩

/-- The function `PrintBuildFailedFatal`.  `now` is the value of `time.Now()`, and
`durationString` is the method `String` of `time.Duration`, of the standard library.  The error
is given by its message; `none` is the nil error, on which the call `err.Error()` panics. -/
def PrintBuildFailedFatal (durationString : Int → GoString) (now : Int)
    (startTime : Int) (err : Option GoString) : Run :=
  let runTime := timeSub now startTime
  match err with
  | none => ⟨[], Ending.panicked⟩
  | some msg =>
    ⟨[Event.log Level.error (ascii "Build failed: " ++ msg),
      Event.log Level.fatal (ascii "Total run time: " ++ durationString runTime)],
      Ending.exited⟩

/-- The body of the loop of `PrintStepStatusList`: the line of one step, with the error of
the step when it has one. -/
def stepStatusLine (step : StepRunResultsModel) : Event :=
  match step.Error with
  | some e =>
    logInfo (ascii " * Step: (" ++ step.StepName ++ ascii ") | error: (" ++ e ++ ascii ")")
  | none => logInfo (ascii " * Step: (" ++ step.StepName ++ ascii ")")

/-- The function `PrintStepStatusList`. -/
def PrintStepStatusList (header : GoString) (stepList : List StepRunResultsModel) : Run :=
  if stepList.length > 0 then
    ⟨logInfof0 header :: stepList.map stepStatusLine, Ending.returned⟩
  else ⟨[], Ending.returned⟩

/-- The text of the aggregate line of `PrintStepStatus`, the format
`Out of %d steps, %d was successful, %d failed, %d failed but was marked as skippable and %d
was skipped` with its five counts. -/
def stepStatusCounts (totalCount successCount failedCount failedSkippableCount
    skippedCount : Nat) : GoString :=
  ascii "Out of " ++ fmtNat totalCount ++ ascii " steps, " ++ fmtNat successCount
    ++ ascii " was successful, " ++ fmtNat failedCount ++ ascii " failed, "
    ++ fmtNat failedSkippableCount ++ ascii " failed but was marked as skippable and "
    ++ fmtNat skippedCount ++ ascii " was skipped"

/-- The function `PrintStepStatus`. -/
def PrintStepStatus (stepRunResults : BuildRunResultsModel) : Run :=
  let failedCount := stepRunResults.FailedSteps.length
  let failedSkippableCount := stepRunResults.FailedSkippableSteps.length
  let skippedCount := stepRunResults.SkippedSteps.length
  let successCount := stepRunResults.SuccessSteps.length
  let totalCount := successCount + failedCount + failedSkippableCount + skippedCount
  ⟨logInfo (stepStatusCounts totalCount successCount failedCount failedSkippableCount
      skippedCount)
    :: (PrintStepStatusList (ascii "Failed steps:") stepRunResults.FailedSteps).out
    ++ (PrintStepStatusList (ascii "Failed but skippable steps:")
          stepRunResults.FailedSkippableSteps).out
    ++ (PrintStepStatusList (ascii "Skipped steps:") stepRunResults.SkippedSteps).out,
    Ending.returned⟩

/-- The new title length that `PrintRunningStep` computes for a line wider than the box:
`len(title) - dif - 3` with `dif = len(content) - 50`. -/
def runningNewLength (title : GoString) (idx : Int) : Int :=
  (title.length : Int)
    - (((runningStepLine idx title).length : Int) - (stepRunSummaryBoxMaxWidthChars : Int)) - 3

/-- The new title length that `PrintStepSummary` computes for a content wider than the box:
`len(title) - dif - 3` with `dif = len(content) - 50`. -/
def summaryNewLength (title runTime : GoString) (resultCode exitCode : Int) : Int :=
  (title.length : Int)
    - (((summaryMeasured title runTime resultCode exitCode).length : Int)
        - (stepRunSummaryBoxMaxWidthChars : Int)) - 3

/-- A call of one of the seven render operations, with its arguments. -/
inductive Call where
  | runningWorkflow (title : GoString)
  | runningStep (title : GoString) (idx : Int)
  | stepSummary (title : GoString) (resultCode duration exitCode : Int)
  | buildFailedFatal (startTime : Int) (err : Option GoString)
  | summary (buildRunResults : BuildRunResultsModel)
  | stepStatus (stepRunResults : BuildRunResultsModel)
  | stepStatusList (header : GoString) (stepList : List StepRunResultsModel)

/-- The behaviour of a call made when the clock reads `now`. -/
def perform (TimeToFormattedSeconds : Int → GoString → GoString)
    (durationString : Int → GoString) (now : Int) : Call → Run
  | Call.runningWorkflow title => PrintRunningWorkflow title
  | Call.runningStep title idx => PrintRunningStep title idx
  | Call.stepSummary title resultCode duration exitCode =>
    PrintStepSummary TimeToFormattedSeconds title resultCode duration exitCode
  | Call.buildFailedFatal startTime err =>
    PrintBuildFailedFatal durationString now startTime err
  | Call.summary buildRunResults => PrintSummary TimeToFormattedSeconds now buildRunResults
  | Call.stepStatus stepRunResults => PrintStepStatus stepRunResults
  | Call.stepStatusList header stepList => PrintStepStatusList header stepList

/-- The text of `time.Duration.String` for a duration of 1 to 999 nanoseconds: the number
of nanoseconds in decimal, followed by `ns`. -/
def nanosText (d : Int) : GoString := fmtInt d ++ ascii "ns"

/-- The listing of a bucket as it reads: nothing for an empty bucket, and otherwise the
header and one line per step, in the order of the list. -/
def bucketListing (header : GoString) (stepList : List StepRunResultsModel) : List Event :=
  if stepList = [] then [] else logInfo header :: stepList.map stepStatusLine

/-! ## The operations as changes of the state of the process

The state that a render operation can read or change: the clock, what has been written to
the two sinks so far, and whether the process still runs.  Every operation is given once more,
statement by statement, as a change of this state; `written` is the history that a hidden
counter or a piece of state kept between calls would have to live in. -/

/-- The state of the process: the reading of the clock, the events written so far, and the
way the process has ended (`Ending.returned` while it runs). -/
structure World where
  clock : Int
  written : List Event
  status : Ending
  deriving DecidableEq, Repr

/-- Writes one event to its sink; a process that has ended writes nothing. -/
def emit (e : Event) (w : World) : World :=
  match w.status with
  | Ending.returned => { w with written := w.written ++ [e] }
  | _ => w

/-- Ends the process, by `os.Exit` or by a panic. -/
def halt (s : Ending) (w : World) : World :=
  match w.status with
  | Ending.returned => { w with status := s }
  | _ => w

/-- The clock moves on by `d` nanoseconds. -/
def advance (d : Int) (w : World) : World := { w with clock := w.clock + d }

/-- The statements of `PrintRunningWorkflow`. -/
def callPrintRunningWorkflow (title : GoString) (w : World) : World :=
  w |> emit (Event.println [])
    |> emit (logInfo (Blue (ascii "Running workflow (" ++ title ++ ascii ")")))
    |> emit (Event.println [])

/-- The statements of `PrintRunningStep`. -/
def callPrintRunningStep (title : GoString) (idx : Int) (w : World) : World :=
  match fitRunningStep title idx with
  | none => halt Ending.panicked w
  | some content =>
    w |> emit (logInfo (dashes content.length))
      |> emit (logInfof0 content)
      |> emit (logInfo (dashes content.length))

/-- The statements of `PrintStepSummary`. -/
def callPrintStepSummary (TimeToFormattedSeconds : Int → GoString → GoString)
    (title : GoString) (resultCode duration exitCode : Int) (w : World) : World :=
  let runTime := TimeToFormattedSeconds duration (ascii " sec")
  match fitSummary title runTime resultCode exitCode with
  | none => halt Ending.panicked w
  | some (title, content) =>
    match summaryShown title runTime resultCode exitCode with
    | none => emit (Event.log Level.error (ascii "Unkown result code")) w
    | some shown =>
      w |> emit (logInfo (dashes content.length))
        |> emit (logInfof0 shown)
        |> emit (logInfo (dashes content.length))
        |> emit (Event.println [])

/-- The statements of `PrintBuildFailedFatal`: the clock is read first. -/
def callPrintBuildFailedFatal (durationString : Int → GoString)
    (startTime : Int) (err : Option GoString) (w : World) : World :=
  let runTime := timeSub w.clock startTime
  match err with
  | none => halt Ending.panicked w
  | some msg =>
    w |> emit (Event.log Level.error (ascii "Build failed: " ++ msg))
      |> emit (Event.log Level.fatal (ascii "Total run time: " ++ durationString runTime))
      |> halt Ending.exited

/-- The statements of `PrintSummary`: the clock is read after the header is written. -/
def callPrintSummary (TimeToFormattedSeconds : Int → GoString → GoString)
    (buildRunResults : BuildRunResultsModel) (w : World) : World :=
  let successStepCount := buildRunResults.SuccessSteps.length
  let failedStepCount := buildRunResults.FailedSteps.length
  let failedSkippableStepCount := buildRunResults.FailedSkippableSteps.length
  let skippedStepCount := buildRunResults.SkippedSteps.length
  let totalStepCount :=
    successStepCount + failedStepCount + failedSkippableStepCount + skippedStepCount
  let w1 := w |> emit (Event.println []) |> emit (logInfo (ascii "==> Summary:"))
  let runTime := timeSub w1.clock buildRunResults.StartTime
  let w2 := emit (logInfo (ascii "Total run time: "
    ++ TimeToFormattedSeconds runTime (ascii " seconds"))) w1
  if totalStepCount > 0 then
    let w3 := emit (logInfo (ascii "Out of " ++ fmtNat totalStepCount ++ ascii " steps:")) w2
    let w4 := if successStepCount > 0 then
        emit (logInfo (Green (ascii " * " ++ fmtNat successStepCount
          ++ ascii " was successful"))) w3
      else w3
    let w5 := if failedStepCount > 0 then
        emit (logInfo (Red (ascii " * " ++ fmtNat failedStepCount ++ ascii " failed"))) w4
      else w4
    let w6 := if failedSkippableStepCount > 0 then
        emit (logInfo (Yellow (ascii " * " ++ fmtNat failedSkippableStepCount
          ++ ascii " failed but was marked as skippable and"))) w5
      else w5
    let w7 := if skippedStepCount > 0 then
        emit (logInfo (Blue (ascii " * " ++ fmtNat skippedStepCount
          ++ ascii " was skipped"))) w6
      else w6
    let w8 := emit (Event.println []) w7
    if failedStepCount > 0 then
      w8 |> emit (Event.log Level.fatal (ascii "FINISHED but a couple of steps failed - Ouch"))
         |> halt Ending.exited
    else
      let w9 := emit (logInfo (ascii "DONE - Congrats!!")) w8
      if failedSkippableStepCount > 0 then
        emit (Event.log Level.warn (ascii "P.S.: a couple of non imporatant steps failed")) w9
      else w9
  else w2

/-- The statements of `PrintStepStatusList`: the loop writes one line per step. -/
def callPrintStepStatusList (header : GoString) (stepList : List StepRunResultsModel)
    (w : World) : World :=
  if stepList.length > 0 then
    stepList.foldl (fun v step => emit (stepStatusLine step) v) (emit (logInfof0 header) w)
  else w

/-- The statements of `PrintStepStatus`. -/
def callPrintStepStatus (stepRunResults : BuildRunResultsModel) (w : World) : World :=
  let failedCount := stepRunResults.FailedSteps.length
  let failedSkippableCount := stepRunResults.FailedSkippableSteps.length
  let skippedCount := stepRunResults.SkippedSteps.length
  let successCount := stepRunResults.SuccessSteps.length
  let totalCount := successCount + failedCount + failedSkippableCount + skippedCount
  w |> emit (logInfo (stepStatusCounts totalCount successCount failedCount
        failedSkippableCount skippedCount))
    |> callPrintStepStatusList (ascii "Failed steps:") stepRunResults.FailedSteps
    |> callPrintStepStatusList (ascii "Failed but skippable steps:")
        stepRunResults.FailedSkippableSteps
    |> callPrintStepStatusList (ascii "Skipped steps:") stepRunResults.SkippedSteps

/-- A call made in a state of the process; a process that has ended makes no call. -/
def call (TimeToFormattedSeconds : Int → GoString → GoString)
    (durationString : Int → GoString) (c : Call) (w : World) : World :=
  match w.status with
  | Ending.returned =>
    match c with
    | Call.runningWorkflow title => callPrintRunningWorkflow title w
    | Call.runningStep title idx => callPrintRunningStep title idx w
    | Call.stepSummary title resultCode duration exitCode =>
      callPrintStepSummary TimeToFormattedSeconds title resultCode duration exitCode w
    | Call.buildFailedFatal startTime err =>
      callPrintBuildFailedFatal durationString startTime err w
    | Call.summary buildRunResults =>
      callPrintSummary TimeToFormattedSeconds buildRunResults w
    | Call.stepStatus stepRunResults => callPrintStepStatus stepRunResults w
    | Call.stepStatusList header stepList => callPrintStepStatusList header stepList w
  | _ => w

/-- The events that a call has written: those of the state after it that come after the
events of the state before it. -/
def appended (before after : World) : List Event :=
  after.written.drop before.written.length

/-- The run time that a call reports when the clock reads `now`: the text of the time since
the start time for `PrintSummary` and for `PrintBuildFailedFatal` with an error, and none for
the other calls. -/
def reportedRunTime (TimeToFormattedSeconds : Int → GoString → GoString)
    (durationString : Int → GoString) (now : Int) : Call → Option GoString
  | Call.summary buildRunResults =>
    some (TimeToFormattedSeconds (timeSub now buildRunResults.StartTime) (ascii " seconds"))
  | Call.buildFailedFatal startTime (some _) => some (durationString (timeSub now startTime))
  | _ => none

/-! ## Sample inputs -/

/-- Modelled from the spec: `TimeToFormattedSeconds`, which is defined outside `print.go`, on
a duration above ten seconds with a fraction of less than half a second: the number of whole
seconds in decimal, followed by the suffix.  Durations are counted in nanoseconds. -/
def secondsText (t : Int) (suffix : GoString) : GoString :=
  fmtInt (t / 1000000000) ++ suffix

/-- The UTF-8 encoding of a character. -/
def utf8Char (c : Char) : GoString :=
  let n := c.toNat
  if n < 0x80 then [n.toUInt8]
  else if n < 0x800 then [(0xc0 + n / 64).toUInt8, (0x80 + n % 64).toUInt8]
  else if n < 0x10000 then
    [(0xe0 + n / 4096).toUInt8, (0x80 + n / 64 % 64).toUInt8, (0x80 + n % 64).toUInt8]
  else
    [(0xf0 + n / 262144).toUInt8, (0x80 + n / 4096 % 64).toUInt8,
      (0x80 + n / 64 % 64).toUInt8, (0x80 + n % 64).toUInt8]

/-- The bytes of a string literal, in UTF-8. -/
def utf8 (s : String) : GoString := s.toList.flatMap utf8Char
/-! ## Lemmas on the formatter -/

theorem doPrintf_of_notPct (s : GoString) (h : s.all notPct = true) : doPrintf 0 s = s := by
  induction s with
  | nil => rfl
  | cons c r ih =>
    simp only [List.all_cons, Bool.and_eq_true] at h
    have hc : (c == pct) = false := by
      have := h.1
      simpa [notPct] using this
    simp [doPrintf, hc, ih h.2]

theorem Sprintf0_of_notPct (s : GoString) (h : s.all notPct = true) : Sprintf0 s = s :=
  doPrintf_of_notPct s h

theorem digitChar_mem (d : Nat) (h : d < 10) :
    (Nat.digitChar d).toNat.toUInt8 ∈
      ([0x30, 0x31, 0x32, 0x33, 0x34, 0x35, 0x36, 0x37, 0x38, 0x39] : List UInt8) := by
  interval_cases d <;> decide

theorem toDigitsCore_mem (f n : Nat) (ds : List Char) (c : Char)
    (h : c ∈ Nat.toDigitsCore 10 f n ds) : c ∈ ds ∨ ∃ d, d < 10 ∧ c = Nat.digitChar d := by
  induction f generalizing n ds with
  | zero => left; simpa [Nat.toDigitsCore] using h
  | succ f ih =>
    simp only [Nat.toDigitsCore] at h
    split at h
    · rcases List.mem_cons.mp h with h | h
      · right; exact ⟨n % 10, Nat.mod_lt _ (by decide), h⟩
      · left; exact h
    · rcases ih _ _ h with h | h
      · rcases List.mem_cons.mp h with h | h
        · right; exact ⟨n % 10, Nat.mod_lt _ (by decide), h⟩
        · left; exact h
      · right; exact h

theorem fmtNat_mem (n : Nat) (c : UInt8) (h : c ∈ fmtNat n) :
    c ∈ ([0x30, 0x31, 0x32, 0x33, 0x34, 0x35, 0x36, 0x37, 0x38, 0x39] : List UInt8) := by
  unfold fmtNat at h
  obtain ⟨ch, hch, rfl⟩ := List.mem_map.mp h
  rcases toDigitsCore_mem _ _ _ _ hch with h | ⟨d, hd, rfl⟩
  · cases h
  · exact digitChar_mem d hd

theorem fmtInt_mem (i : Int) (c : UInt8) (h : c ∈ fmtInt i) :
    c ∈ ([0x2d, 0x30, 0x31, 0x32, 0x33, 0x34, 0x35, 0x36, 0x37, 0x38, 0x39] : List UInt8) := by
  unfold fmtInt at h
  split at h
  · rcases List.mem_cons.mp h with h | h
    · subst h; decide
    · exact List.mem_cons_of_mem _ (fmtNat_mem _ _ h)
  · exact List.mem_cons_of_mem _ (fmtNat_mem _ _ h)

theorem plainText_fmtInt (i : Int) : plainText (fmtInt i) := by
  have key : ∀ c ∈ ([0x2d, 0x30, 0x31, 0x32, 0x33, 0x34, 0x35, 0x36, 0x37, 0x38, 0x39] :
      List UInt8), plainByte c = true := by decide
  exact List.all_eq_true.mpr fun c hc => key c (fmtInt_mem i c hc)

theorem plainText_append {a b : GoString} (ha : plainText a) (hb : plainText b) :
    plainText (a ++ b) := by
  unfold plainText at *
  simp [List.all_append, ha, hb]

theorem plainText_take {a : GoString} (ha : plainText a) (k : Nat) : plainText (a.take k) :=
  List.all_eq_true.mpr fun c hc => List.all_eq_true.mp ha c (List.mem_of_mem_take hc)

theorem plainText_notPct {a : GoString} (ha : plainText a) : a.all notPct = true :=
  List.all_eq_true.mpr fun c hc => by
    have := List.all_eq_true.mp ha c hc
    simp only [plainByte, Bool.and_eq_true] at this
    exact this.2

theorem plainText_notEsc {a : GoString} (ha : plainText a) : a.all notEsc = true :=
  List.all_eq_true.mpr fun c hc => by
    have := List.all_eq_true.mp ha c hc
    simp only [plainByte, Bool.and_eq_true] at this
    exact this.1.2

theorem plainText_isAscii {a : GoString} (ha : plainText a) : a.all isAscii = true :=
  List.all_eq_true.mpr fun c hc => by
    have := List.all_eq_true.mp ha c hc
    simp only [plainByte, Bool.and_eq_true] at this
    exact this.1.1

theorem stripColorFrom_append (a b : GoString) (ha : a.all notEsc = true) :
    stripColorFrom false (a ++ b) = a ++ stripColorFrom false b := by
  induction a with
  | nil => rfl
  | cons c r ih =>
    simp only [List.all_cons, Bool.and_eq_true] at ha
    have hc : (c == esc) = false := by
      have := ha.1
      simpa [notEsc] using this
    simp [stripColorFrom, hc, ih ha.2]

theorem stripColor_of_notEsc (a : GoString) (ha : a.all notEsc = true) : stripColor a = a := by
  have := stripColorFrom_append a [] ha
  simpa [stripColor, stripColorFrom] using this

theorem runeCount_append (a b : GoString) : runeCount (a ++ b) = runeCount a + runeCount b := by
  simp [runeCount, List.countP_append]

theorem runeCount_of_isAscii (a : GoString) (ha : a.all isAscii = true) :
    runeCount a = a.length := by
  unfold runeCount
  rw [List.countP_eq_length]
  intro c hc
  have h1 := List.all_eq_true.mp ha c hc
  simp only [isAscii, decide_eq_true_eq] at h1
  simp only [inRange, Bool.not_eq_true', Bool.and_eq_false_imp, decide_eq_true_eq,
    decide_eq_false_iff_not]
  omega

theorem all_take {p : UInt8 → Bool} {a : GoString} (ha : a.all p = true) (k : Nat) :
    (a.take k).all p = true :=
  List.all_eq_true.mpr fun c hc => List.all_eq_true.mp ha c (List.mem_of_mem_take hc)

/-! ## Lemmas on the width check -/

theorem length_summaryMeasured (title runTime : GoString) (resultCode exitCode : Int) :
    (summaryMeasured title runTime resultCode exitCode).length =
      title.length + (summaryMeasured [] runTime resultCode exitCode).length := by
  unfold summaryMeasured
  split <;> simp [summaryPlaceholder, summaryPlaceholderExit, ascii] <;> omega

theorem slicePrefix_of_le (s : GoString) (k : Nat) (h : k ≤ s.length) :
    slicePrefix s (k : Int) = some (s.take k) := by
  have h2 : (k : Int) ≤ (s.length : Int) := by exact_mod_cast h
  simp [slicePrefix, h2]

theorem fitSummary_wide (title runTime : GoString) (resultCode exitCode : Int)
    (hwide : 50 < (summaryMeasured title runTime resultCode exitCode).length)
    (hkeep : 0 ≤ (title.length : Int)
      - (((summaryMeasured title runTime resultCode exitCode).length : Int) - 50) - 3) :
    ∃ k, k ≤ title.length
      ∧ (summaryMeasured (title.take k ++ ascii "...") runTime resultCode exitCode).length = 50
      ∧ fitSummary title runTime resultCode exitCode =
          some (title.take k ++ ascii "...",
            summaryMeasured (title.take k ++ ascii "...") runTime resultCode exitCode) := by
  have hL := length_summaryMeasured title runTime resultCode exitCode
  refine ⟨title.length + 47 - (summaryMeasured title runTime resultCode exitCode).length,
    by omega, ?_, ?_⟩
  · rw [length_summaryMeasured, List.length_append, List.length_take]
    simp only [ascii, String.toList, List.map, List.length]
    omega
  · have hn : (title.length : Int)
        - (((summaryMeasured title runTime resultCode exitCode).length : Int) - 50) - 3
        = ((title.length + 47 - (summaryMeasured title runTime resultCode exitCode).length
            : Nat) : Int) := by omega
    unfold fitSummary
    simp only [stepRunSummaryBoxMaxWidthChars, Nat.cast_ofNat]
    rw [if_pos (by exact hwide), hn, slicePrefix_of_le _ _ (by omega)]
    rfl

theorem fitSummary_fits (title runTime : GoString) (resultCode exitCode : Int)
    (hfit : (summaryMeasured title runTime resultCode exitCode).length ≤ 50) :
    fitSummary title runTime resultCode exitCode =
      some (title, summaryMeasured title runTime resultCode exitCode) := by
  unfold fitSummary
  simp only [stepRunSummaryBoxMaxWidthChars]
  rw [if_neg (by omega)]

/-! ## Lemmas on the content line -/

theorem stripColorFrom_redColor (x : GoString) :
    stripColorFrom false (redColor ++ x) = stripColorFrom false x := by
  rfl

theorem stripColorFrom_greenColor (x : GoString) :
    stripColorFrom false (greenColor ++ x) = stripColorFrom false x := by
  rfl

theorem stripColorFrom_yellowColor (x : GoString) :
    stripColorFrom false (yellowColor ++ x) = stripColorFrom false x := by
  rfl

theorem stripColorFrom_blueColor (x : GoString) :
    stripColorFrom false (blueColor ++ x) = stripColorFrom false x := by
  rfl

theorem stripColorFrom_resetColor (x : GoString) :
    stripColorFrom false (resetColor ++ x) = stripColorFrom false x := by
  rfl

theorem stripColor_frame (a color t b : GoString)
    (hcolor : ∀ x, stripColorFrom false (color ++ x) = stripColorFrom false x)
    (ha : a.all notEsc = true) (ht : t.all notEsc = true) (hb : b.all notEsc = true) :
    stripColor (a ++ addColor color t ++ b) = a ++ t ++ b := by
  have hb2 : stripColorFrom false b = b := stripColor_of_notEsc b hb
  unfold stripColor addColor
  rw [List.append_assoc, stripColorFrom_append _ _ ha, List.append_assoc, List.append_assoc,
    hcolor, stripColorFrom_append _ _ ht, stripColorFrom_resetColor, hb2, List.append_assoc]

theorem stripColor_summaryLine (icon color t r : GoString)
    (hcolor : ∀ x, stripColorFrom false (color ++ x) = stripColorFrom false x)
    (hicon : icon.all notEsc = true) (ht : t.all notEsc = true) (hr : r.all notEsc = true) :
    stripColor (summaryLine icon (addColor color t) r) = summaryLine icon t r := by
  have h := stripColor_frame (ascii "| " ++ icon ++ ascii " | ") color t
    (ascii " | " ++ r ++ ascii " |") hcolor
    (by simp only [List.all_append, hicon]; decide) ht
    (by simp only [List.all_append, hr]; decide)
  simpa [summaryLine, List.append_assoc] using h

theorem stripColor_summaryLineExit (icon color t r : GoString) (exitCode : Int)
    (hcolor : ∀ x, stripColorFrom false (color ++ x) = stripColorFrom false x)
    (hicon : icon.all notEsc = true) (ht : t.all notEsc = true) (hr : r.all notEsc = true) :
    stripColor (summaryLineExit icon (addColor color t) r exitCode)
      = summaryLineExit icon t r exitCode := by
  have he := plainText_notEsc (plainText_fmtInt exitCode)
  have h := stripColor_frame (ascii "| " ++ icon ++ ascii " | ") color t
    (ascii " | " ++ r ++ ascii " | exit code: " ++ fmtInt exitCode ++ ascii " |") hcolor
    (by simp only [List.all_append, hicon]; decide) ht
    (by simp only [List.all_append, hr, he]; decide)
  simpa [summaryLineExit, List.append_assoc] using h

theorem notPct_addColor (color t : GoString) (hcolor : color.all notPct = true)
    (ht : t.all notPct = true) : (addColor color t).all notPct = true := by
  unfold addColor
  simp only [List.all_append, hcolor, ht]
  decide

theorem notPct_summaryLine (icon t r : GoString) (hicon : icon.all notPct = true)
    (ht : t.all notPct = true) (hr : r.all notPct = true) :
    (summaryLine icon t r).all notPct = true := by
  unfold summaryLine
  simp only [List.all_append, hicon, ht, hr]
  decide

theorem notPct_summaryLineExit (icon t r : GoString) (exitCode : Int)
    (hicon : icon.all notPct = true) (ht : t.all notPct = true) (hr : r.all notPct = true) :
    (summaryLineExit icon t r exitCode).all notPct = true := by
  have he := plainText_notPct (plainText_fmtInt exitCode)
  unfold summaryLineExit
  simp only [List.all_append, hicon, ht, hr, he]
  decide

theorem runeCount_resultIcon (resultCode : Int) : runeCount (resultIcon resultCode) = 1 := by
  unfold resultIcon
  split
  · decide
  · split <;> decide

theorem runeCount_summaryUncoloured (t r : GoString) (resultCode exitCode : Int)
    (ht : plainText t) (hr : plainText r) :
    runeCount (summaryUncoloured t r resultCode exitCode)
      = (summaryMeasured t r resultCode exitCode).length := by
  have e1 := runeCount_of_isAscii _ (plainText_isAscii ht)
  have e2 := runeCount_of_isAscii _ (plainText_isAscii hr)
  have e3 := runeCount_of_isAscii _ (plainText_isAscii (plainText_fmtInt exitCode))
  have e4 := runeCount_resultIcon resultCode
  have a1 : runeCount (ascii "| ") = 2 := by decide
  have a2 : runeCount (ascii " | ") = 3 := by decide
  have a3 : runeCount (ascii " |") = 2 := by decide
  have a4 : runeCount (ascii " | exit code: ") = 14 := by decide
  have b1 : (ascii "|...| ").length = 6 := by decide
  have b2 : (ascii " | ").length = 3 := by decide
  have b3 : (ascii " |").length = 2 := by decide
  have b4 : (ascii " | exit code: ").length = 14 := by decide
  unfold summaryUncoloured summaryMeasured
  split
  · simp only [summaryLineExit, summaryPlaceholderExit, runeCount_append, List.length_append,
      e1, e2, e3, e4, a1, a2, a3, a4, b1, b2, b3, b4]
  · simp only [summaryLine, summaryPlaceholder, runeCount_append, List.length_append,
      e1, e2, e4, a1, a2, a3, b1, b2, b3]

/-- For a recognised result code and plain title and run time, the `switch` gives a content
line that holds no percent sign and that reads, without colour, as the uncoloured line. -/
theorem summaryShown_plain (t r : GoString) (resultCode exitCode : Int)
    (hcode : 0 ≤ resultCode ∧ resultCode ≤ 4) (ht : plainText t) (hr : plainText r) :
    ∃ line, summaryShown t r resultCode exitCode = some line
      ∧ line.all notPct = true
      ∧ stripColor line = summaryUncoloured t r resultCode exitCode := by
  have tp := plainText_notPct ht
  have rp := plainText_notPct hr
  have te := plainText_notEsc ht
  have re := plainText_notEsc hr
  obtain h | h | h | h | h : resultCode = 0 ∨ resultCode = 1 ∨ resultCode = 2
      ∨ resultCode = 3 ∨ resultCode = 4 := by omega
  · subst h
    exact ⟨_, rfl, notPct_summaryLine _ _ _ (by decide)
      (notPct_addColor _ _ (by decide) tp) rp,
      stripColor_summaryLine _ _ _ _ stripColorFrom_greenColor (by decide) te re⟩
  · subst h
    exact ⟨_, rfl, notPct_summaryLineExit _ _ _ _ (by decide)
      (notPct_addColor _ _ (by decide) tp) rp,
      stripColor_summaryLineExit _ _ _ _ _ stripColorFrom_redColor (by decide) te re⟩
  · subst h
    exact ⟨_, rfl, notPct_summaryLineExit _ _ _ _ (by decide)
      (notPct_addColor _ _ (by decide) tp) rp,
      stripColor_summaryLineExit _ _ _ _ _ stripColorFrom_yellowColor (by decide) te re⟩
  · subst h
    exact ⟨_, rfl, notPct_summaryLine _ _ _ (by decide)
      (notPct_addColor _ _ (by decide) tp) rp,
      stripColor_summaryLine _ _ _ _ stripColorFrom_blueColor (by decide) te re⟩
  · subst h
    exact ⟨_, rfl, notPct_summaryLine _ _ _ (by decide)
      (notPct_addColor _ _ (by decide) tp) rp,
      stripColor_summaryLine _ _ _ _ stripColorFrom_blueColor (by decide) te re⟩

/-! ## Lemmas on substrings -/

theorem infix_split_sep {α : Type} (pat a b : List α) (c : α) (hc : c ∉ pat)
    (h : pat <:+: a ++ c :: b) : pat <:+: a ∨ pat <:+: b := by
  obtain ⟨s, t, hst⟩ := h
  rcases List.append_eq_append_iff.mp hst with ⟨a', ha, _⟩ | ⟨c', hsp, hcb⟩
  · left
    exact ⟨s, a', ha.symm⟩
  · cases c' with
    | nil =>
      left
      exact ⟨s, [], by simpa using hsp⟩
    | cons x c'' =>
      simp only [List.cons_append, List.cons.injEq] at hcb
      obtain ⟨rfl, hb⟩ := hcb
      rcases List.append_eq_append_iff.mp hsp with ⟨a', _, hp⟩ | ⟨d, hs, hd⟩
      · exact absurd (by rw [hp]; simp) hc
      · cases d with
        | nil =>
          simp only [List.nil_append] at hd
          exact absurd (by rw [← hd]; simp) hc
        | cons y d' =>
          simp only [List.cons_append, List.cons.injEq] at hd
          right
          exact ⟨d', t, by rw [hb, hd.2]⟩

theorem infix_cons_of_ne {α : Type} (p c : α) (ps b : List α) (hne : p ≠ c)
    (h : (p :: ps) <:+: c :: b) : (p :: ps) <:+: b := by
  rcases List.infix_cons_iff.mp h with h | h
  · obtain ⟨t, ht⟩ := h
    simp only [List.cons_append, List.cons.injEq] at ht
    exact absurd ht.1 hne
  · exact h

theorem infix_concat_of_ne {α : Type} (p c : α) (ps a : List α) (hne : p ≠ c)
    (h : (ps ++ [p]) <:+: a ++ [c]) : (ps ++ [p]) <:+: a := by
  have h2 : (p :: ps.reverse) <:+: c :: a.reverse := by
    have := List.reverse_infix.mpr h
    simpa using this
  have h3 := infix_cons_of_ne p c ps.reverse a.reverse hne h2
  have := List.reverse_infix.mpr h3
  simpa using this

theorem infix_append_of_not_mem {α : Type} (p : α) (ps x t : List α) (hp : p ∉ x)
    (h : (p :: ps) <:+: x ++ t) : (p :: ps) <:+: t := by
  induction x with
  | nil => simpa using h
  | cons y x ih =>
    have hy : p ≠ y := fun e => hp (e ▸ List.mem_cons_self _ _)
    have hx : p ∉ x := fun e => hp (List.mem_cons_of_mem _ e)
    exact ih hx (infix_cons_of_ne p y ps (x ++ t) hy (by simpa using h))

/-- The text `exit code` does not occur in a title cut to a prefix and given the ellipsis,
unless it occurs in the title. -/
theorem exitCode_not_in_cut (title : GoString) (k : Nat)
    (h : ¬ ascii "exit code" <:+: title) :
    ¬ ascii "exit code" <:+: title.take k ++ ascii "..." := by
  intro hin
  have e : title.take k ++ ascii "..." = title.take k ++ 0x2e :: ascii ".." := by
    rfl
  rw [e] at hin
  rcases infix_split_sep _ _ _ _ (by decide) hin with h1 | h1
  · exact h (h1.trans (List.take_prefix k title).isInfix)
  · have hm : (0x65 : UInt8) ∈ ascii ".." := h1.subset (by decide)
    exact absurd hm (by decide)

/-- The text `exit code` occurs in a content line without exit code field only inside the
title or inside the run time. -/
theorem exitCode_not_in_summaryLine (icon color t r : GoString)
    (hicon : (0x65 : UInt8) ∉ icon) (hcolor : (0x65 : UInt8) ∉ color)
    (ht : ¬ ascii "exit code" <:+: t) (hr : ¬ ascii "exit code" <:+: r) :
    ¬ ascii "exit code" <:+: summaryLine icon (addColor color t) r := by
  intro hin
  have e : summaryLine icon (addColor color t) r =
      (ascii "| " ++ icon ++ ascii " | " ++ color) ++ t ++ esc :: (ascii "[0m "
        ++ 0x7c :: ((0x20 :: (r ++ [0x20])) ++ 0x7c :: [])) := by
    simp [summaryLine, addColor, resetColor, ascii]
    decide
  rw [e] at hin
  rcases infix_split_sep _ _ _ _ (by decide) hin with h1 | h1
  · have e2 : ascii "exit code" = 0x65 :: ascii "xit code" := by decide
    rw [e2] at h1
    have hx : (0x65 : UInt8) ∉ ascii "| " ++ icon ++ ascii " | " ++ color := by
      simp only [List.mem_append, not_or]
      exact ⟨⟨⟨by decide, hicon⟩, by decide⟩, hcolor⟩
    have h2 := infix_append_of_not_mem _ _ _ _ hx h1
    rw [← e2] at h2
    exact ht h2
  · rcases infix_split_sep _ _ _ _ (by decide) h1 with h2 | h2
    · have hm : (0x65 : UInt8) ∈ ascii "[0m " := h2.subset (by decide)
      exact absurd hm (by decide)
    · rcases infix_split_sep _ _ _ _ (by decide) h2 with h3 | h3
      · have e2 : ascii "exit code" = 0x65 :: ascii "xit code" := by decide
        have e3 : ascii "exit code" = ascii "exit cod" ++ [0x65] := by decide
        rw [e2] at h3
        have h4 := infix_cons_of_ne _ _ _ _ (by decide) h3
        rw [← e2, e3] at h4
        have h5 := infix_concat_of_ne _ _ _ _ (by decide) h4
        rw [← e3] at h5
        exact hr h5
      · have hm : (0x65 : UInt8) ∈ ([] : GoString) := h3.subset (by decide)
        cases hm

/-! ## PrintRunningStep on titles without percent sign -/

theorem length_runningStepLine (idx : Int) (title : GoString) :
    (runningStepLine idx title).length = title.length + (fmtInt idx).length + 7 := by
  simp [runningStepLine, ascii]
  omega

theorem length_fmtNat_le (n : Nat) (h : n < 10 ^ 19) : (fmtNat n).length ≤ 19 := by
  unfold fmtNat Nat.toDigits
  rw [List.length_map]
  exact Nat.toDigitsCore_length 10 (by decide) (n + 1) n 19 h (by decide)

/-- The decimal text of a 64-bit integer is at most 20 bytes long. -/
theorem length_fmtInt_le (idx : Int)
    (h : -9223372036854775808 ≤ idx ∧ idx ≤ 9223372036854775807) :
    (fmtInt idx).length ≤ 20 := by
  have hn : idx.natAbs < 10 ^ 19 := by omega
  have := length_fmtNat_le idx.natAbs hn
  unfold fmtInt
  split
  · simp only [List.length_cons]
    omega
  · omega

theorem notPct_runningStepLine (idx : Int) (title : GoString)
    (ht : title.all notPct = true) : (runningStepLine idx title).all notPct = true := by
  have hi := plainText_notPct (plainText_fmtInt idx)
  unfold runningStepLine
  simp only [List.all_append, hi, ht]
  decide

/-- Without a percent sign in the title, a line of at most 50 bytes is emitted as it is built,
between two separators of its length. -/
theorem PrintRunningStep_fitting_plain (title : GoString) (idx : Int)
    (ht : title.all notPct = true) (hfit : (runningStepLine idx title).length ≤ 50) :
    PrintRunningStep title idx =
      ⟨[logInfo (dashes (runningStepLine idx title).length),
        logInfo (runningStepLine idx title),
        logInfo (dashes (runningStepLine idx title).length)], Ending.returned⟩ := by
  have hf : fitRunningStep title idx = some (runningStepLine idx title) := by
    unfold fitRunningStep
    simp only [stepRunSummaryBoxMaxWidthChars]
    rw [if_neg (by omega)]
  simp only [PrintRunningStep, hf, logInfof0, logInfo,
    Sprintf0_of_notPct _ (notPct_runningStepLine idx title ht)]

/-- Without a percent sign in the title and with a 64-bit index, a line wider than 50 bytes
has its title cut to `40 - len(decimal idx)` bytes, which is in range, and the line emitted is
the line of the cut title with the ellipsis, exactly 50 bytes wide. -/
theorem PrintRunningStep_truncated_plain (title : GoString) (idx : Int)
    (ht : title.all notPct = true)
    (hidx : -9223372036854775808 ≤ idx ∧ idx ≤ 9223372036854775807)
    (hwide : 50 < (runningStepLine idx title).length) :
    PrintRunningStep title idx =
      ⟨[logInfo (dashes 50),
        logInfo (runningStepLine idx
          (title.take (40 - (fmtInt idx).length) ++ ascii "...")),
        logInfo (dashes 50)], Ending.returned⟩
    ∧ (runningStepLine idx
        (title.take (40 - (fmtInt idx).length) ++ ascii "...")).length = 50 := by
  have hd := length_fmtInt_le idx hidx
  have hL := length_runningStepLine idx title
  have hlen : (runningStepLine idx
      (title.take (40 - (fmtInt idx).length) ++ ascii "...")).length = 50 := by
    rw [length_runningStepLine, List.length_append, List.length_take]
    simp only [ascii, String.toList, List.map, List.length]
    omega
  have hn : (title.length : Int) - (((runningStepLine idx title).length : Int) - 50) - 3
      = ((40 - (fmtInt idx).length : Nat) : Int) := by omega
  have hf : fitRunningStep title idx = some (runningStepLine idx
      (title.take (40 - (fmtInt idx).length) ++ ascii "...")) := by
    unfold fitRunningStep
    simp only [stepRunSummaryBoxMaxWidthChars, Nat.cast_ofNat]
    rw [if_pos (by exact hwide), hn, slicePrefix_of_le _ _ (by omega)]
    rfl
  have hp : (runningStepLine idx
      (title.take (40 - (fmtInt idx).length) ++ ascii "...")).all notPct = true := by
    apply notPct_runningStepLine
    simp only [List.all_append, all_take ht]
    decide
  refine ⟨?_, hlen⟩
  simp only [PrintRunningStep, hf, hlen, logInfof0, logInfo, Sprintf0_of_notPct _ hp]

/-! ## PrintRunningStep -/

/-- C1 at a failing input, the title `Ensure 100% coverage of the unit tests of all modules`
with index 3.  The line is 61 bytes wide, the title is cut to 39 bytes and given the ellipsis,
and the content is 50 bytes wide; but `log.Infof` takes the content as a format, reads `% c`
as a directive without operand, and the line emitted is 59 bytes wide. -/
theorem PrintRunningStep_truncated_percent :
    50 < (runningStepLine 3
      (ascii "Ensure 100% coverage of the unit tests of all modules")).length
    ∧ PrintRunningStep (ascii "Ensure 100% coverage of the unit tests of all modules") 3 =
        ⟨[logInfo (dashes 50),
          logInfo (ascii "| (3) Ensure 100%!c(MISSING)overage of the unit tests ... |"),
          logInfo (dashes 50)], Ending.returned⟩
    ∧ runningStepLine 3
        ((ascii "Ensure 100% coverage of the unit tests of all modules").take 39 ++ ascii "...")
        = ascii "| (3) Ensure 100% coverage of the unit tests ... |"
    ∧ (ascii "| (3) Ensure 100% coverage of the unit tests ... |").length = 50
    ∧ (ascii "| (3) Ensure 100%!c(MISSING)overage of the unit tests ... |").length = 59 := by
  decide

/-- C2 at a failing input, the title `Ensure 100% coverage` with index 3.  The line is 28
bytes wide and is not cut, both separators are 28 dashes; but `log.Infof` takes the line as a
format, and the line emitted is not the line built from the index and the title. -/
theorem PrintRunningStep_fitting_percent :
    (runningStepLine 3 (ascii "Ensure 100% coverage")).length ≤ 50
    ∧ runningStepLine 3 (ascii "Ensure 100% coverage") = ascii "| (3) Ensure 100% coverage |"
    ∧ PrintRunningStep (ascii "Ensure 100% coverage") 3 =
        ⟨[logInfo (dashes 28),
          logInfo (ascii "| (3) Ensure 100%!c(MISSING)overage |"),
          logInfo (dashes 28)], Ending.returned⟩
    ∧ (ascii "| (3) Ensure 100%!c(MISSING)overage |").length = 37 := by
  decide

/-! ## PrintStepSummary on titles without percent sign -/

/-- For a recognised result code the `switch` gives a content line, which holds no percent
sign when neither the title nor the run time does. -/
theorem summaryShown_notPct (t r : GoString) (resultCode exitCode : Int)
    (hcode : 0 ≤ resultCode ∧ resultCode ≤ 4)
    (ht : t.all notPct = true) (hr : r.all notPct = true) :
    ∃ line, summaryShown t r resultCode exitCode = some line ∧ line.all notPct = true := by
  obtain h | h | h | h | h : resultCode = 0 ∨ resultCode = 1 ∨ resultCode = 2
      ∨ resultCode = 3 ∨ resultCode = 4 := by omega
  · subst h
    exact ⟨_, rfl, notPct_summaryLine _ _ _ (by decide) (notPct_addColor _ _ (by decide) ht) hr⟩
  · subst h
    exact ⟨_, rfl,
      notPct_summaryLineExit _ _ _ _ (by decide) (notPct_addColor _ _ (by decide) ht) hr⟩
  · subst h
    exact ⟨_, rfl,
      notPct_summaryLineExit _ _ _ _ (by decide) (notPct_addColor _ _ (by decide) ht) hr⟩
  · subst h
    exact ⟨_, rfl, notPct_summaryLine _ _ _ (by decide) (notPct_addColor _ _ (by decide) ht) hr⟩
  · subst h
    exact ⟨_, rfl, notPct_summaryLine _ _ _ (by decide) (notPct_addColor _ _ (by decide) ht) hr⟩

/-- Without a percent sign in the title and in the formatted duration, a recognised result
code whose placeholder content is at most 50 bytes wide gives the content line of the `switch`
as it is built, between two separators of the width of the placeholder content, and a blank
line. -/
theorem PrintStepSummary_fitting_plain
    (TimeToFormattedSeconds : Int → GoString → GoString) (title : GoString)
    (resultCode duration exitCode : Int)
    (hcode : 0 ≤ resultCode ∧ resultCode ≤ 4)
    (ht : title.all notPct = true)
    (hr : (TimeToFormattedSeconds duration (ascii " sec")).all notPct = true)
    (hfit : (summaryMeasured title (TimeToFormattedSeconds duration (ascii " sec"))
      resultCode exitCode).length ≤ 50) :
    ∃ line,
      summaryShown title (TimeToFormattedSeconds duration (ascii " sec")) resultCode exitCode
        = some line
      ∧ PrintStepSummary TimeToFormattedSeconds title resultCode duration exitCode =
        ⟨[logInfo (dashes (summaryMeasured title
            (TimeToFormattedSeconds duration (ascii " sec")) resultCode exitCode).length),
          logInfo line,
          logInfo (dashes (summaryMeasured title
            (TimeToFormattedSeconds duration (ascii " sec")) resultCode exitCode).length),
          Event.println []], Ending.returned⟩ := by
  obtain ⟨line, hshown, hp⟩ := summaryShown_notPct title _ resultCode exitCode hcode ht hr
  have hf := fitSummary_fits title (TimeToFormattedSeconds duration (ascii " sec"))
    resultCode exitCode hfit
  refine ⟨line, hshown, ?_⟩
  simp only [PrintStepSummary, hf, hshown, logInfof0, logInfo, Sprintf0_of_notPct line hp]

/-! ## PrintStepSummary: the truncating case -/

/-- C3, as amended.  For a title and a formatted duration of plain text (ASCII bytes, none of
them ESC or a percent sign) and a recognised result code: when the placeholder content is wider
than 50 bytes and the computed new title length is not negative, the title is cut to a prefix
and given the suffix `...`, both separators are 50 dashes, and the content line emitted reads,
with its colour sequences removed, as the uncoloured line of the cut title, which is exactly
50 characters wide. -/
theorem PrintStepSummary_truncated_plain
    (TimeToFormattedSeconds : Int → GoString → GoString) (title : GoString)
    (resultCode duration exitCode : Int)
    (hcode : 0 ≤ resultCode ∧ resultCode ≤ 4)
    (htitle : plainText title)
    (hrun : plainText (TimeToFormattedSeconds duration (ascii " sec")))
    (hwide : 50 < (summaryMeasured title (TimeToFormattedSeconds duration (ascii " sec"))
      resultCode exitCode).length)
    (hkeep : 0 ≤ (title.length : Int)
      - (((summaryMeasured title (TimeToFormattedSeconds duration (ascii " sec"))
            resultCode exitCode).length : Int) - 50) - 3) :
    ∃ k line, k ≤ title.length
      ∧ PrintStepSummary TimeToFormattedSeconds title resultCode duration exitCode =
          ⟨[logInfo (dashes 50), logInfo line, logInfo (dashes 50), Event.println []],
            Ending.returned⟩
      ∧ stripColor line = summaryUncoloured (title.take k ++ ascii "...")
          (TimeToFormattedSeconds duration (ascii " sec")) resultCode exitCode
      ∧ runeCount (stripColor line) = 50 := by
  obtain ⟨k, hk, hlen, hfit⟩ := fitSummary_wide title _ resultCode exitCode hwide hkeep
  have hT : plainText (title.take k ++ ascii "...") :=
    plainText_append (plainText_take htitle k) (by decide)
  obtain ⟨line, hshown, hpct, hstrip⟩ :=
    summaryShown_plain _ _ resultCode exitCode hcode hT hrun
  refine ⟨k, line, hk, ?_, hstrip, ?_⟩
  · simp only [PrintStepSummary, hfit, hshown, hlen, logInfof0, logInfo,
      Sprintf0_of_notPct line hpct]
  · rw [hstrip, runeCount_summaryUncoloured _ _ _ _ hT hrun, hlen]

/-- A title and inputs at which the amended C3 applies: a failed step with a long title. -/
theorem PrintStepSummary_truncated_plain_witness :
    ∃ k line, k ≤ (ascii "Run the unit tests of every module of the project").length
      ∧ PrintStepSummary secondsText
          (ascii "Run the unit tests of every module of the project") 1 12000000000 2 =
          ⟨[logInfo (dashes 50), logInfo line, logInfo (dashes 50), Event.println []],
            Ending.returned⟩
      ∧ stripColor line = summaryUncoloured
          ((ascii "Run the unit tests of every module of the project").take k ++ ascii "...")
          (secondsText 12000000000 (ascii " sec")) 1 2
      ∧ runeCount (stripColor line) = 50 :=
  PrintStepSummary_truncated_plain secondsText
    (ascii "Run the unit tests of every module of the project") 1 12000000000 2
    (by decide) (by decide) (by decide) (by decide) (by decide)

/-- C3 fails as stated: a title with accented letters (two bytes each in UTF-8) is cut by
bytes, and the content line emitted is 48 characters wide, not 50. -/
theorem PrintStepSummary_accented_title_narrow :
    50 < (summaryMeasured (utf8 "Création des archives et téléversement vers le dépôt")
        (secondsText 12000000000 (ascii " sec")) 0 0).length
    ∧ PrintStepSummary secondsText
        (utf8 "Création des archives et téléversement vers le dépôt") 0 12000000000 0 =
        ⟨[logInfo (dashes 50),
          logInfo (summaryLine iconSuccess (Green (utf8 "Création des archives et tél..."))
            (ascii "12 sec")),
          logInfo (dashes 50), Event.println []], Ending.returned⟩
    ∧ runeCount (stripColor (summaryLine iconSuccess
        (Green (utf8 "Création des archives et tél...")) (ascii "12 sec"))) = 48 := by
  decide

/-! ## PrintSummary -/

/-- The output of `PrintSummary` for an aggregate with at least one step: the header, the run
time, the total, the count lines of the non-empty buckets, a blank line and the verdict. -/
theorem PrintSummary_of_steps (TimeToFormattedSeconds : Int → GoString → GoString) (now : Int)
    (r : BuildRunResultsModel) (hsome : 0 < stepTotal r) :
    PrintSummary TimeToFormattedSeconds now r =
      ⟨[Event.println [], logInfo (ascii "==> Summary:"),
        logInfo (ascii "Total run time: "
          ++ TimeToFormattedSeconds (timeSub now r.StartTime) (ascii " seconds")),
        logInfo (ascii "Out of " ++ fmtNat (stepTotal r) ++ ascii " steps:")]
        ++ bucketLine Green r.SuccessSteps.length (ascii " was successful")
        ++ bucketLine Red r.FailedSteps.length (ascii " failed")
        ++ bucketLine Yellow r.FailedSkippableSteps.length
            (ascii " failed but was marked as skippable and")
        ++ bucketLine Blue r.SkippedSteps.length (ascii " was skipped")
        ++ [Event.println []]
        ++ (if r.FailedSteps = [] then
              successVerdict :: (if r.FailedSkippableSteps = [] then [] else [skippableWarning])
            else [fatalVerdict]),
       if r.FailedSteps = [] then Ending.returned else Ending.exited⟩ := by
  unfold stepTotal at hsome
  unfold PrintSummary
  simp only [gt_iff_lt, hsome, if_true, stepTotal, bucketLine, List.length_pos,
    List.length_eq_zero, fatalVerdict, successVerdict, skippableWarning, logInfo]
  by_cases h1 : r.FailedSteps = [] <;> by_cases h2 : r.FailedSkippableSteps = [] <;>
    by_cases h3 : r.SuccessSteps = [] <;> by_cases h4 : r.SkippedSteps = [] <;>
    simp [h1, h2, h3, h4]

/-- The output of `PrintSummary` for an aggregate without steps. -/
theorem PrintSummary_of_no_steps (TimeToFormattedSeconds : Int → GoString → GoString)
    (now : Int) (r : BuildRunResultsModel) (hnone : stepTotal r = 0) :
    PrintSummary TimeToFormattedSeconds now r =
      ⟨[Event.println [], logInfo (ascii "==> Summary:"),
        logInfo (ascii "Total run time: "
          ++ TimeToFormattedSeconds (timeSub now r.StartTime) (ascii " seconds"))],
       Ending.returned⟩ := by
  unfold stepTotal at hnone
  unfold PrintSummary
  simp only [gt_iff_lt, hnone, Nat.lt_irrefl, if_false]

theorem bucketLine_level (colour : GoString → GoString) (n : Nat) (text : GoString)
    (e : Event) (he : e ∈ bucketLine colour n text) : ∃ msg, e = Event.log Level.info msg := by
  unfold bucketLine at he
  split at he
  · cases he
  · exact ⟨_, List.mem_singleton.mp he⟩

theorem failed_nil_of_no_steps (r : BuildRunResultsModel) (hnone : stepTotal r = 0) :
    r.FailedSteps = [] := by
  unfold stepTotal at hnone
  exact List.length_eq_zero.mp (by omega)

theorem steps_of_failed (r : BuildRunResultsModel) (h : r.FailedSteps ≠ []) :
    0 < stepTotal r := by
  have := List.length_pos.mpr h
  unfold stepTotal
  omega

/-- C4.  `PrintSummary` ends the process through a fatal report exactly when the list
`FailedSteps` is not empty, whatever the other three buckets hold: the call ends in the exit
of the process, and a fatal-level message is among its output, if and only if `FailedSteps` is
not empty, and then the fatal report is the last event.  For an aggregate with 3 successful, 2
failed, 1 failed-skippable and no skipped step the total reported is 6 and the call ends in
the exit. -/
theorem PrintSummary_fatal_iff_failed (TimeToFormattedSeconds : Int → GoString → GoString)
    (now : Int) (r : BuildRunResultsModel) :
    ((PrintSummary TimeToFormattedSeconds now r).ending = Ending.exited ↔ r.FailedSteps ≠ [])
    ∧ ((∃ msg, Event.log Level.fatal msg ∈ (PrintSummary TimeToFormattedSeconds now r).out)
        ↔ r.FailedSteps ≠ [])
    ∧ (r.FailedSteps ≠ [] →
        (PrintSummary TimeToFormattedSeconds now r).out.getLast? = some fatalVerdict)
    ∧ (r.SuccessSteps.length = 3 ∧ r.FailedSteps.length = 2
        ∧ r.FailedSkippableSteps.length = 1 ∧ r.SkippedSteps.length = 0 →
        logInfo (ascii "Out of 6 steps:") ∈ (PrintSummary TimeToFormattedSeconds now r).out
        ∧ (PrintSummary TimeToFormattedSeconds now r).out.getLast? = some fatalVerdict
        ∧ (PrintSummary TimeToFormattedSeconds now r).ending = Ending.exited) := by
  have hfatal : r.FailedSteps ≠ [] →
      (PrintSummary TimeToFormattedSeconds now r).out.getLast? = some fatalVerdict
      ∧ (PrintSummary TimeToFormattedSeconds now r).ending = Ending.exited := by
    intro h
    rw [PrintSummary_of_steps _ _ _ (steps_of_failed r h)]
    simp only [h, if_false]
    exact ⟨List.getLast?_concat _, trivial⟩
  refine ⟨⟨?_, fun h => (hfatal h).2⟩, ⟨?_, ?_⟩, fun h => (hfatal h).1, ?_⟩
  · intro hex hnil
    by_cases h0 : stepTotal r = 0
    · rw [PrintSummary_of_no_steps _ _ _ h0] at hex
      cases hex
    · rw [PrintSummary_of_steps _ _ _ (Nat.pos_of_ne_zero h0)] at hex
      simp [hnil] at hex
  · rintro ⟨msg, hmem⟩ hnil
    by_cases h0 : stepTotal r = 0
    · rw [PrintSummary_of_no_steps _ _ _ h0] at hmem
      simp [logInfo] at hmem
    · rw [PrintSummary_of_steps _ _ _ (Nat.pos_of_ne_zero h0)] at hmem
      simp only [hnil, if_true, List.mem_append, List.mem_cons, List.mem_singleton,
        List.not_mem_nil, or_false] at hmem
      rcases hmem with ((((((h | h | h | h) | h) | h) | h) | h) | h) | h | h
      all_goals first
        | (obtain ⟨m, hm⟩ := bucketLine_level _ _ _ _ h; simp at hm)
        | (split at h <;> simp [skippableWarning] at h)
        | simp [logInfo, successVerdict] at h
  · intro h
    refine ⟨ascii "FINISHED but a couple of steps failed - Ouch", ?_⟩
    have := (hfatal h).1
    exact List.mem_of_getLast?_eq_some this
  · rintro ⟨h1, h2, h3, h4⟩
    have hne : r.FailedSteps ≠ [] := by
      intro h
      rw [h] at h2
      cases h2
    refine ⟨?_, (hfatal hne).1, (hfatal hne).2⟩
    rw [PrintSummary_of_steps _ _ _ (steps_of_failed r hne)]
    have ht : stepTotal r = 6 := by unfold stepTotal; omega
    rw [ht]
    refine List.mem_append_left _ (List.mem_append_left _ (List.mem_append_left _
      (List.mem_append_left _ (List.mem_append_left _ (List.mem_append_left _ ?_)))))
    exact List.mem_cons_of_mem _ (List.mem_cons_of_mem _ (List.mem_cons_of_mem _
      (List.mem_cons.mpr (Or.inl (by decide)))))

/-- C5.  For an aggregate with no failed step and at least one step, `PrintSummary` returns
without a fatal report, and its output ends with the success verdict at info level, followed
by the warning about skippable failures exactly when the failed-skippable bucket is not empty;
every event before the verdict is a blank line or an info line. -/
theorem PrintSummary_passing_verdict (TimeToFormattedSeconds : Int → GoString → GoString)
    (now : Int) (r : BuildRunResultsModel)
    (hfailed : r.FailedSteps = []) (hsome : 0 < stepTotal r) :
    (PrintSummary TimeToFormattedSeconds now r).ending = Ending.returned
    ∧ (∀ msg, Event.log Level.fatal msg ∉ (PrintSummary TimeToFormattedSeconds now r).out)
    ∧ ∃ before,
        (∀ e ∈ before, e = Event.println [] ∨ ∃ msg, e = Event.log Level.info msg)
        ∧ (PrintSummary TimeToFormattedSeconds now r).out =
            before ++ Event.log Level.info (ascii "DONE - Congrats!!") ::
              (if r.FailedSkippableSteps = [] then []
               else [Event.log Level.warn
                 (ascii "P.S.: a couple of non imporatant steps failed")]) := by
  have hiff := PrintSummary_of_steps TimeToFormattedSeconds now r hsome
  have hbefore : ∀ e ∈ [Event.println [], logInfo (ascii "==> Summary:"),
        logInfo (ascii "Total run time: "
          ++ TimeToFormattedSeconds (timeSub now r.StartTime) (ascii " seconds")),
        logInfo (ascii "Out of " ++ fmtNat (stepTotal r) ++ ascii " steps:")]
        ++ bucketLine Green r.SuccessSteps.length (ascii " was successful")
        ++ bucketLine Red r.FailedSteps.length (ascii " failed")
        ++ bucketLine Yellow r.FailedSkippableSteps.length
            (ascii " failed but was marked as skippable and")
        ++ bucketLine Blue r.SkippedSteps.length (ascii " was skipped")
        ++ [Event.println []],
      e = Event.println [] ∨ ∃ msg, e = Event.log Level.info msg := by
    intro e he
    simp only [List.mem_append, List.mem_cons, List.mem_singleton, List.not_mem_nil,
      or_false] at he
    rcases he with (((((h | h | h | h) | h) | h) | h) | h) | h
    all_goals first
      | exact Or.inr (bucketLine_level _ _ _ _ h)
      | exact Or.inl h
      | exact Or.inr ⟨_, h⟩
  rw [if_pos hfailed, if_pos hfailed] at hiff
  refine ⟨by rw [hiff], ?_, _, hbefore, ?_⟩
  · intro msg hmem
    rw [hiff] at hmem
    rcases List.mem_append.mp hmem with h | h
    · rcases hbefore _ h with h | ⟨m, h⟩ <;> cases h
    · rcases List.mem_cons.mp h with h | h
      · cases h
      · split at h
        · cases h
        · rw [List.mem_singleton] at h
          cases h
  · rw [hiff]
    rfl

/-- C5 at an input: five successful steps and one failed step that is skippable. -/
theorem PrintSummary_passing_verdict_witness :
    (PrintSummary secondsText 12000000000 (sampleResults 5 0 1 0)).ending = Ending.returned
    ∧ (∀ msg, Event.log Level.fatal msg ∉
        (PrintSummary secondsText 12000000000 (sampleResults 5 0 1 0)).out)
    ∧ ∃ before,
        (∀ e ∈ before, e = Event.println [] ∨ ∃ msg, e = Event.log Level.info msg)
        ∧ (PrintSummary secondsText 12000000000 (sampleResults 5 0 1 0)).out =
            before ++ Event.log Level.info (ascii "DONE - Congrats!!") ::
              (if (sampleResults 5 0 1 0).FailedSkippableSteps = [] then []
               else [Event.log Level.warn
                 (ascii "P.S.: a couple of non imporatant steps failed")]) :=
  PrintSummary_passing_verdict secondsText 12000000000 (sampleResults 5 0 1 0)
    (by decide) (by decide)

/-- C6.  For an aggregate with at least one step, the output of `PrintSummary` is the blank
line, the header and the run time, then the line `Out of N steps:` with N the sum of the four
bucket sizes, then one count line for each bucket that is not empty (and none for an empty
one), with the size of the bucket, in green for success, red for failed, yellow for
failed-skippable and blue for skipped, in this order, then a blank line and the verdict, which
holds no count line. -/
theorem PrintSummary_bucket_breakdown (TimeToFormattedSeconds : Int → GoString → GoString)
    (now : Int) (r : BuildRunResultsModel)
    (hsome : 0 < r.SuccessSteps.length + r.FailedSteps.length + r.FailedSkippableSteps.length
      + r.SkippedSteps.length) :
    ∃ verdict,
      (∀ e ∈ verdict, e = fatalVerdict ∨ e = successVerdict ∨ e = skippableWarning)
      ∧ (PrintSummary TimeToFormattedSeconds now r).out =
        [Event.println [], logInfo (ascii "==> Summary:"),
          logInfo (ascii "Total run time: "
            ++ TimeToFormattedSeconds (timeSub now r.StartTime) (ascii " seconds")),
          logInfo (ascii "Out of "
            ++ fmtNat (r.SuccessSteps.length + r.FailedSteps.length
                + r.FailedSkippableSteps.length + r.SkippedSteps.length)
            ++ ascii " steps:")]
        ++ (if r.SuccessSteps = [] then []
            else [logInfo (Green (ascii " * " ++ fmtNat r.SuccessSteps.length
              ++ ascii " was successful"))])
        ++ (if r.FailedSteps = [] then []
            else [logInfo (Red (ascii " * " ++ fmtNat r.FailedSteps.length
              ++ ascii " failed"))])
        ++ (if r.FailedSkippableSteps = [] then []
            else [logInfo (Yellow (ascii " * " ++ fmtNat r.FailedSkippableSteps.length
              ++ ascii " failed but was marked as skippable and"))])
        ++ (if r.SkippedSteps = [] then []
            else [logInfo (Blue (ascii " * " ++ fmtNat r.SkippedSteps.length
              ++ ascii " was skipped"))])
        ++ [Event.println []] ++ verdict := by
  have hiff := PrintSummary_of_steps TimeToFormattedSeconds now r hsome
  refine ⟨if r.FailedSteps = [] then
      successVerdict :: (if r.FailedSkippableSteps = [] then [] else [skippableWarning])
    else [fatalVerdict], ?_, ?_⟩
  · intro e he
    split at he
    · rcases List.mem_cons.mp he with h | h
      · exact Or.inr (Or.inl h)
      · split at h
        · cases h
        · exact Or.inr (Or.inr (List.mem_singleton.mp h))
    · exact Or.inl (List.mem_singleton.mp he)
  · rw [hiff]
    simp only [bucketLine, stepTotal, List.length_eq_zero]

/-- C6 at an input: two successful steps, one failed step and three skipped steps. -/
theorem PrintSummary_bucket_breakdown_witness :
    ∃ verdict,
      (∀ e ∈ verdict, e = fatalVerdict ∨ e = successVerdict ∨ e = skippableWarning)
      ∧ (PrintSummary secondsText 12000000000 (sampleResults 2 1 0 3)).out =
        [Event.println [], logInfo (ascii "==> Summary:"),
          logInfo (ascii "Total run time: "
            ++ secondsText (timeSub 12000000000 (sampleResults 2 1 0 3).StartTime)
                (ascii " seconds")),
          logInfo (ascii "Out of "
            ++ fmtNat ((sampleResults 2 1 0 3).SuccessSteps.length
                + (sampleResults 2 1 0 3).FailedSteps.length
                + (sampleResults 2 1 0 3).FailedSkippableSteps.length
                + (sampleResults 2 1 0 3).SkippedSteps.length)
            ++ ascii " steps:")]
        ++ (if (sampleResults 2 1 0 3).SuccessSteps = [] then []
            else [logInfo (Green (ascii " * "
              ++ fmtNat (sampleResults 2 1 0 3).SuccessSteps.length
              ++ ascii " was successful"))])
        ++ (if (sampleResults 2 1 0 3).FailedSteps = [] then []
            else [logInfo (Red (ascii " * "
              ++ fmtNat (sampleResults 2 1 0 3).FailedSteps.length
              ++ ascii " failed"))])
        ++ (if (sampleResults 2 1 0 3).FailedSkippableSteps = [] then []
            else [logInfo (Yellow (ascii " * "
              ++ fmtNat (sampleResults 2 1 0 3).FailedSkippableSteps.length
              ++ ascii " failed but was marked as skippable and"))])
        ++ (if (sampleResults 2 1 0 3).SkippedSteps = [] then []
            else [logInfo (Blue (ascii " * "
              ++ fmtNat (sampleResults 2 1 0 3).SkippedSteps.length
              ++ ascii " was skipped"))])
        ++ [Event.println []] ++ verdict :=
  PrintSummary_bucket_breakdown secondsText 12000000000 (sampleResults 2 1 0 3) (by decide)

/-- C7.  For an aggregate whose four buckets are all empty, `PrintSummary` returns after
exactly three events: the blank line, the header `==> Summary:` and the line of the total run
time.  There is no line `Out of N steps:`, no count line, no verdict, no warning and no fatal
report. -/
theorem PrintSummary_empty (TimeToFormattedSeconds : Int → GoString → GoString)
    (now : Int) (r : BuildRunResultsModel)
    (hs : r.SuccessSteps = []) (hf : r.FailedSteps = [])
    (hfs : r.FailedSkippableSteps = []) (hsk : r.SkippedSteps = []) :
    PrintSummary TimeToFormattedSeconds now r =
      ⟨[Event.println [], Event.log Level.info (ascii "==> Summary:"),
        Event.log Level.info (ascii "Total run time: "
          ++ TimeToFormattedSeconds (timeSub now r.StartTime) (ascii " seconds"))],
       Ending.returned⟩ := by
  have h0 : stepTotal r = 0 := by simp [stepTotal, hs, hf, hfs, hsk]
  rw [PrintSummary_of_no_steps _ _ _ h0]
  rfl

/-- C7 at an input: the aggregate without steps, 12 seconds after its start. -/
theorem PrintSummary_empty_witness :
    PrintSummary secondsText 12000000000 (sampleResults 0 0 0 0) =
      ⟨[Event.println [], Event.log Level.info (ascii "==> Summary:"),
        Event.log Level.info (ascii "Total run time: "
          ++ secondsText (timeSub 12000000000 (sampleResults 0 0 0 0).StartTime)
              (ascii " seconds"))],
       Ending.returned⟩ :=
  PrintSummary_empty secondsText 12000000000 (sampleResults 0 0 0 0) rfl rfl rfl rfl

/-! ## PrintStepSummary: the exit code field -/

/-- The width check gives the title itself or a prefix of it with the ellipsis, and the
placeholder content of that title, unless the slice expression panics. -/
theorem fitSummary_cases (title runTime : GoString) (resultCode exitCode : Int) :
    fitSummary title runTime resultCode exitCode = none
    ∨ ∃ t, (t = title ∨ ∃ k, t = title.take k ++ ascii "...")
        ∧ fitSummary title runTime resultCode exitCode =
            some (t, summaryMeasured t runTime resultCode exitCode) := by
  unfold fitSummary
  simp only []
  split
  · unfold slicePrefix
    split
    · exact Or.inr ⟨_, Or.inr ⟨_, rfl⟩, rfl⟩
    · exact Or.inl rfl
  · exact Or.inr ⟨title, Or.inl rfl, rfl⟩

/-- C8, as amended.  For a title and a formatted duration that hold no percent sign, a call
of `PrintStepSummary` either panics in the slice expression, with no output, or emits
separator, content line, separator and blank line, and then: with result code Success the
content line does not contain `exit code` unless the title or the formatted duration contains
it; with result code Failed or FailedSkippable the content line contains `exit code: N`,
where N is the exit code in decimal. -/
theorem PrintStepSummary_exit_code_field
    (TimeToFormattedSeconds : Int → GoString → GoString) (title : GoString)
    (duration exitCode : Int)
    (htitle : title.all notPct = true)
    (hrun : (TimeToFormattedSeconds duration (ascii " sec")).all notPct = true) :
    (¬ ascii "exit code" <:+: title →
      ¬ ascii "exit code" <:+: TimeToFormattedSeconds duration (ascii " sec") →
      PrintStepSummary TimeToFormattedSeconds title StepRunResultCodeSuccess duration exitCode
          = ⟨[], Ending.panicked⟩
      ∨ ∃ sep line,
          PrintStepSummary TimeToFormattedSeconds title StepRunResultCodeSuccess duration
              exitCode
            = ⟨[logInfo sep, logInfo line, logInfo sep, Event.println []], Ending.returned⟩
          ∧ ¬ ascii "exit code" <:+: line)
    ∧ ∀ resultCode,
        resultCode = StepRunResultCodeFailed ∨ resultCode = StepRunResultCodeFailedSkippable →
        PrintStepSummary TimeToFormattedSeconds title resultCode duration exitCode
            = ⟨[], Ending.panicked⟩
        ∨ ∃ sep line,
            PrintStepSummary TimeToFormattedSeconds title resultCode duration exitCode
              = ⟨[logInfo sep, logInfo line, logInfo sep, Event.println []], Ending.returned⟩
            ∧ ascii "exit code: " ++ fmtInt exitCode <:+: line := by
  have hcut : ∀ t, (t = title ∨ ∃ k, t = title.take k ++ ascii "...") →
      t.all notPct = true := by
    rintro t (rfl | ⟨k, rfl⟩)
    · exact htitle
    · simp only [List.all_append, all_take htitle k]
      decide
  have hfield : ∀ (icon colour : GoString) (t : GoString),
      ascii "exit code: " ++ fmtInt exitCode <:+:
        summaryLineExit icon (addColor colour t)
          (TimeToFormattedSeconds duration (ascii " sec")) exitCode := by
    intro icon colour t
    refine ⟨ascii "| " ++ icon ++ ascii " | " ++ addColor colour t ++ ascii " | "
      ++ TimeToFormattedSeconds duration (ascii " sec") ++ ascii " | ", ascii " |", ?_⟩
    have e : ascii " | exit code: " = ascii " | " ++ ascii "exit code: " := by decide
    simp only [summaryLineExit, e, List.append_assoc]
  refine ⟨fun ht hr => ?_, fun resultCode hcode => ?_⟩
  · rcases fitSummary_cases title (TimeToFormattedSeconds duration (ascii " sec"))
      StepRunResultCodeSuccess exitCode with hnone | ⟨t, ht2, hsome⟩
    · left
      simp only [PrintStepSummary, hnone]
    · right
      have hp := notPct_summaryLine iconSuccess (Green t) _ (by decide)
        (notPct_addColor greenColor t (by decide) (hcut t ht2)) hrun
      refine ⟨dashes (summaryMeasured t (TimeToFormattedSeconds duration (ascii " sec"))
        StepRunResultCodeSuccess exitCode).length, summaryLine iconSuccess (Green t)
        (TimeToFormattedSeconds duration (ascii " sec")), ?_, ?_⟩
      · simp only [PrintStepSummary, hsome, summaryShown, if_true, logInfof0, logInfo,
          Sprintf0_of_notPct _ hp]
      · refine exitCode_not_in_summaryLine _ _ _ _ (by decide) (by decide) ?_ hr
        rcases ht2 with rfl | ⟨k, rfl⟩
        · exact ht
        · exact exitCode_not_in_cut title k ht
  · rcases fitSummary_cases title (TimeToFormattedSeconds duration (ascii " sec"))
      resultCode exitCode with hnone | ⟨t, ht2, hsome⟩
    · left
      simp only [PrintStepSummary, hnone]
    · right
      rcases hcode with rfl | rfl
      · have hp := notPct_summaryLineExit iconFailed (Red t) _ exitCode (by decide)
          (notPct_addColor redColor t (by decide) (hcut t ht2)) hrun
        refine ⟨dashes (summaryMeasured t (TimeToFormattedSeconds duration (ascii " sec"))
          StepRunResultCodeFailed exitCode).length, summaryLineExit iconFailed (Red t)
          (TimeToFormattedSeconds duration (ascii " sec")) exitCode, ?_, hfield _ _ _⟩
        have hs : summaryShown t (TimeToFormattedSeconds duration (ascii " sec"))
            StepRunResultCodeFailed exitCode = some (summaryLineExit iconFailed (Red t)
              (TimeToFormattedSeconds duration (ascii " sec")) exitCode) := rfl
        simp only [PrintStepSummary, hsome, hs, logInfof0, logInfo, Sprintf0_of_notPct _ hp]
      · have hp := notPct_summaryLineExit iconFailed (Yellow t) _ exitCode (by decide)
          (notPct_addColor yellowColor t (by decide) (hcut t ht2)) hrun
        refine ⟨dashes (summaryMeasured t (TimeToFormattedSeconds duration (ascii " sec"))
          StepRunResultCodeFailedSkippable exitCode).length,
          summaryLineExit iconFailed (Yellow t)
          (TimeToFormattedSeconds duration (ascii " sec")) exitCode, ?_, hfield _ _ _⟩
        have hs : summaryShown t (TimeToFormattedSeconds duration (ascii " sec"))
            StepRunResultCodeFailedSkippable exitCode = some (summaryLineExit iconFailed
              (Yellow t) (TimeToFormattedSeconds duration (ascii " sec")) exitCode) := rfl
        simp only [PrintStepSummary, hsome, hs, logInfof0, logInfo, Sprintf0_of_notPct _ hp]

/-- C8, as amended, at an input: the title `Run the unit tests`, a duration of 12 seconds and
exit code 2. -/
theorem PrintStepSummary_exit_code_field_witness :
    (¬ ascii "exit code" <:+: ascii "Run the unit tests" →
      ¬ ascii "exit code" <:+: secondsText 12000000000 (ascii " sec") →
      PrintStepSummary secondsText (ascii "Run the unit tests") StepRunResultCodeSuccess
          12000000000 2 = ⟨[], Ending.panicked⟩
      ∨ ∃ sep line,
          PrintStepSummary secondsText (ascii "Run the unit tests") StepRunResultCodeSuccess
              12000000000 2
            = ⟨[logInfo sep, logInfo line, logInfo sep, Event.println []], Ending.returned⟩
          ∧ ¬ ascii "exit code" <:+: line)
    ∧ ∀ resultCode,
        resultCode = StepRunResultCodeFailed ∨ resultCode = StepRunResultCodeFailedSkippable →
        PrintStepSummary secondsText (ascii "Run the unit tests") resultCode 12000000000 2
            = ⟨[], Ending.panicked⟩
        ∨ ∃ sep line,
            PrintStepSummary secondsText (ascii "Run the unit tests") resultCode 12000000000 2
              = ⟨[logInfo sep, logInfo line, logInfo sep, Event.println []], Ending.returned⟩
            ∧ ascii "exit code: " ++ fmtInt 2 <:+: line :=
  PrintStepSummary_exit_code_field secondsText (ascii "Run the unit tests") 12000000000 2
    (by decide) (by decide)

/-- C8 fails as stated: the title `Check the exit code` with result code Success gives a
content line that contains `exit code`. -/
theorem PrintStepSummary_success_title_exit_code :
    PrintStepSummary secondsText (ascii "Check the exit code") StepRunResultCodeSuccess
        12000000000 0 =
      ⟨[logInfo (dashes 36),
        logInfo (summaryLine iconSuccess (Green (ascii "Check the exit code")) (ascii "12 sec")),
        logInfo (dashes 36), Event.println []], Ending.returned⟩
    ∧ ascii "exit code" <:+:
        summaryLine iconSuccess (Green (ascii "Check the exit code")) (ascii "12 sec") :=
  ⟨by decide,
    ascii "| " ++ iconSuccess ++ ascii " | " ++ greenColor ++ ascii "Check the ",
    resetColor ++ ascii " | 12 sec |", by decide⟩

/-! ## PrintStepSummary: the layout and the unrecognised result code -/

/-- C9 at a failing input, the title `Ensure 100% coverage` with result code Success, a
duration of 12 seconds and exit code 0.  The placeholder content is 37 bytes wide and the title
is not cut; but `log.Infof` takes the content line as a format, and the line emitted is not
the line `| icon | green(title) | runtime |`. -/
theorem PrintStepSummary_layout_percent :
    (summaryMeasured (ascii "Ensure 100% coverage") (secondsText 12000000000 (ascii " sec"))
        0 0).length ≤ 50
    ∧ PrintStepSummary secondsText (ascii "Ensure 100% coverage") 0 12000000000 0 =
        ⟨[logInfo (dashes 37),
          logInfo (summaryLine iconSuccess (Green (ascii "Ensure 100%!c(MISSING)overage"))
            (ascii "12 sec")),
          logInfo (dashes 37), Event.println []], Ending.returned⟩
    ∧ summaryLine iconSuccess (Green (ascii "Ensure 100%!c(MISSING)overage")) (ascii "12 sec")
        ≠ summaryLine iconSuccess (Green (ascii "Ensure 100% coverage"))
            (secondsText 12000000000 (ascii " sec")) := by
  decide

theorem summaryShown_unknown (t r : GoString) (resultCode exitCode : Int)
    (hcode : resultCode < 0 ∨ 4 < resultCode) :
    summaryShown t r resultCode exitCode = none := by
  unfold summaryShown
  simp only [StepRunResultCodeSuccess, StepRunResultCodeFailed,
    StepRunResultCodeFailedSkippable, StepRunResultCodeSkipped,
    StepRunResultCodeSkippedWithRunIf]
  rw [if_neg (by omega), if_neg (by omega), if_neg (by omega), if_neg (by omega)]

/-- C10.  With a result code outside 0..4, `PrintStepSummary` makes one error-level report and
nothing else, and returns: no separator, no content line, no blank line, no fatal report and no
panic.  The formatted duration is taken to be at most 36 bytes long, which every text of a
number of seconds with the suffix ` sec` is. -/
theorem PrintStepSummary_unknown_code
    (TimeToFormattedSeconds : Int → GoString → GoString) (title : GoString)
    (resultCode duration exitCode : Int)
    (hcode : resultCode < 0 ∨ 4 < resultCode)
    (hrun : (TimeToFormattedSeconds duration (ascii " sec")).length ≤ 36) :
    PrintStepSummary TimeToFormattedSeconds title resultCode duration exitCode =
      ⟨[Event.log Level.error (ascii "Unkown result code")], Ending.returned⟩ := by
  have hL := length_summaryMeasured title (TimeToFormattedSeconds duration (ascii " sec"))
    resultCode exitCode
  have hbase : (summaryMeasured [] (TimeToFormattedSeconds duration (ascii " sec"))
      resultCode exitCode).length
      = (TimeToFormattedSeconds duration (ascii " sec")).length + 11 := by
    unfold summaryMeasured
    simp only [StepRunResultCodeFailed, StepRunResultCodeFailedSkippable]
    rw [if_neg (by omega)]
    simp [summaryPlaceholder, ascii]
  by_cases hwide : 50 < (summaryMeasured title (TimeToFormattedSeconds duration (ascii " sec"))
      resultCode exitCode).length
  · obtain ⟨k, _, _, hfit⟩ := fitSummary_wide title (TimeToFormattedSeconds duration (ascii " sec"))
      resultCode exitCode hwide (by omega)
    simp only [PrintStepSummary, hfit, summaryShown_unknown _ _ _ _ hcode]
  · have hfit := fitSummary_fits title (TimeToFormattedSeconds duration (ascii " sec"))
      resultCode exitCode (by omega)
    simp only [PrintStepSummary, hfit, summaryShown_unknown _ _ _ _ hcode]

/-- C10 at an input: result code 7 with a title long enough to be cut. -/
theorem PrintStepSummary_unknown_code_witness :
    PrintStepSummary secondsText
        (ascii "Run the unit tests of every module of the project") 7 12000000000 2 =
      ⟨[Event.log Level.error (ascii "Unkown result code")], Ending.returned⟩ :=
  PrintStepSummary_unknown_code secondsText
    (ascii "Run the unit tests of every module of the project") 7 12000000000 2
    (by decide) (by decide)

/-! ## PrintStepStatusList and PrintStepStatus -/

/-- Without a percent sign in the header, `PrintStepStatusList` emits nothing for an empty
list, and otherwise the header and one line per step, in the order of the list. -/
theorem PrintStepStatusList_plain (header : GoString) (stepList : List StepRunResultsModel)
    (hh : header.all notPct = true) :
    PrintStepStatusList header stepList = ⟨bucketListing header stepList, Ending.returned⟩ := by
  unfold PrintStepStatusList bucketListing
  cases stepList with
  | nil => rfl
  | cons s l => simp [logInfof0, logInfo, Sprintf0_of_notPct header hh]

/-- C11 at a failing input, the header `Failed steps (50%):` with two steps, the first with
an error.  One line per step is emitted, in order, with and without the error; but the header
goes through `log.Infof` as a format without operand, and the first line emitted is not the
header. -/
theorem PrintStepStatusList_header_percent :
    PrintStepStatusList (ascii "Failed steps (50%):")
        [⟨ascii "build", some (ascii "exit status 1")⟩, ⟨ascii "deploy", none⟩] =
      ⟨[logInfo (ascii "Failed steps (50%!)(MISSING):"),
        logInfo (ascii " * Step: (build) | error: (exit status 1)"),
        logInfo (ascii " * Step: (deploy)")], Ending.returned⟩
    ∧ ascii "Failed steps (50%!)(MISSING):" ≠ ascii "Failed steps (50%):" := by
  decide

theorem length_bucketListing (header : GoString) (stepList : List StepRunResultsModel) :
    (bucketListing header stepList).length
      = if stepList = [] then 0 else 1 + stepList.length := by
  unfold bucketListing
  split
  · rfl
  · simp only [List.length_cons, List.length_map]
    omega

/-- C12.  For every aggregate, `PrintStepStatus` returns, and its first event is the info line
`Out of T steps, S was successful, F failed, K failed but was marked as skippable and P was
skipped`, where S, F, K and P are the sizes of the success, failed, failed-skippable and skipped
buckets in decimal and T is their sum.  The line is followed by the listings of the failed, the
failed-skippable and the skipped bucket, in this order: nothing for an empty bucket, and
otherwise the header (`Failed steps:`, `Failed but skippable steps:`, `Skipped steps:`) and
one line per step, ` * Step: (name)` or ` * Step: (name) | error: (detail)`.  The number of
events is 1 plus, for each of the three buckets that is not empty, 1 plus its size; when the
three buckets are empty the aggregate line is the only event.  For one successful step, the
failed step `build` with the error `exit status 1`, and the skipped step `deploy`, the five
events read as shown. -/
theorem PrintStepStatus_listing (r : BuildRunResultsModel) :
    PrintStepStatus r =
      ⟨Event.log Level.info
          (ascii "Out of "
            ++ fmtNat (r.SuccessSteps.length + r.FailedSteps.length
                + r.FailedSkippableSteps.length + r.SkippedSteps.length)
            ++ ascii " steps, " ++ fmtNat r.SuccessSteps.length
            ++ ascii " was successful, " ++ fmtNat r.FailedSteps.length
            ++ ascii " failed, " ++ fmtNat r.FailedSkippableSteps.length
            ++ ascii " failed but was marked as skippable and "
            ++ fmtNat r.SkippedSteps.length ++ ascii " was skipped")
        :: (if r.FailedSteps = [] then []
            else Event.log Level.info (ascii "Failed steps:")
              :: r.FailedSteps.map stepStatusLine)
        ++ (if r.FailedSkippableSteps = [] then []
            else Event.log Level.info (ascii "Failed but skippable steps:")
              :: r.FailedSkippableSteps.map stepStatusLine)
        ++ (if r.SkippedSteps = [] then []
            else Event.log Level.info (ascii "Skipped steps:")
              :: r.SkippedSteps.map stepStatusLine), Ending.returned⟩
    ∧ (∀ name detail, stepStatusLine ⟨name, some detail⟩ =
        Event.log Level.info
          (ascii " * Step: (" ++ name ++ ascii ") | error: (" ++ detail ++ ascii ")"))
    ∧ (∀ name, stepStatusLine ⟨name, none⟩ =
        Event.log Level.info (ascii " * Step: (" ++ name ++ ascii ")"))
    ∧ (PrintStepStatus r).out.length =
        1 + (if r.FailedSteps = [] then 0 else 1 + r.FailedSteps.length)
          + (if r.FailedSkippableSteps = [] then 0 else 1 + r.FailedSkippableSteps.length)
          + (if r.SkippedSteps = [] then 0 else 1 + r.SkippedSteps.length)
    ∧ (r.FailedSteps = [] ∧ r.FailedSkippableSteps = [] ∧ r.SkippedSteps = [] →
        (PrintStepStatus r).out =
          [Event.log Level.info
            (ascii "Out of " ++ fmtNat r.SuccessSteps.length ++ ascii " steps, "
              ++ fmtNat r.SuccessSteps.length
              ++ ascii (" was successful, 0 failed, 0 failed but was marked as skippable "
                  ++ "and 0 was skipped"))])
    ∧ PrintStepStatus ⟨0, [⟨ascii "clone", none⟩],
          [⟨ascii "build", some (ascii "exit status 1")⟩], [], [⟨ascii "deploy", none⟩]⟩ =
        ⟨[Event.log Level.info (ascii ("Out of 3 steps, 1 was successful, 1 failed, "
            ++ "0 failed but was marked as skippable and 1 was skipped")),
          Event.log Level.info (ascii "Failed steps:"),
          Event.log Level.info (ascii " * Step: (build) | error: (exit status 1)"),
          Event.log Level.info (ascii "Skipped steps:"),
          Event.log Level.info (ascii " * Step: (deploy)")], Ending.returned⟩ := by
  have h : PrintStepStatus r =
      ⟨logInfo (stepStatusCounts
          (r.SuccessSteps.length + r.FailedSteps.length + r.FailedSkippableSteps.length
            + r.SkippedSteps.length)
          r.SuccessSteps.length r.FailedSteps.length r.FailedSkippableSteps.length
          r.SkippedSteps.length)
        :: bucketListing (ascii "Failed steps:") r.FailedSteps
        ++ bucketListing (ascii "Failed but skippable steps:") r.FailedSkippableSteps
        ++ bucketListing (ascii "Skipped steps:") r.SkippedSteps, Ending.returned⟩ := by
    unfold PrintStepStatus
    simp only [PrintStepStatusList_plain (ascii "Failed steps:") _ (by decide),
      PrintStepStatusList_plain (ascii "Failed but skippable steps:") _ (by decide),
      PrintStepStatusList_plain (ascii "Skipped steps:") _ (by decide)]
  refine ⟨h, fun _ _ => rfl, fun _ => rfl, ?_, ?_, by decide⟩
  · rw [h]
    simp only [List.cons_append, List.length_cons, List.length_append, length_bucketListing]
    omega
  · rintro ⟨h1, h2, h3⟩
    rw [h, h1, h2, h3]
    have e : ascii (" was successful, 0 failed, 0 failed but was marked as skippable "
          ++ "and 0 was skipped")
        = ascii " was successful, " ++ fmtNat 0 ++ ascii " failed, " ++ fmtNat 0
          ++ ascii " failed but was marked as skippable and " ++ fmtNat 0
          ++ ascii " was skipped" := by decide
    simp only [e, bucketListing, stepStatusCounts, logInfo, List.length_nil, if_true,
      List.append_nil, Nat.add_zero, List.append_assoc]

/-! ## The slice of PrintRunningStep, the success bucket, PrintBuildFailedFatal -/

/-- The width check of `PrintRunningStep` on a line wider than the box: the slice expression
is taken at the new title length. -/
theorem fitRunningStep_wide (title : GoString) (idx : Int)
    (hwide : 50 < (runningStepLine idx title).length) :
    fitRunningStep title idx =
      (slicePrefix title (runningNewLength title idx)).map
        (fun t => runningStepLine idx (t ++ ascii "...")) := by
  unfold fitRunningStep runningNewLength
  simp only [stepRunSummaryBoxMaxWidthChars]
  rw [if_pos (by exact hwide)]

/-- C13.  For every title and every 64-bit index: when the line is wider than 50 bytes, the
new title length `len(title) - (L - 50) - 3` lies between 0 and `len(title)`, so that the slice
`title[0:newLength]` is in range and the title is cut to that many bytes; and in every case
`PrintRunningStep` returns after exactly three events, a separator, the content line and the
same separator. -/
theorem PrintRunningStep_slice_in_range (title : GoString) (idx : Int)
    (hidx : -9223372036854775808 ≤ idx ∧ idx ≤ 9223372036854775807) :
    (50 < (runningStepLine idx title).length →
      0 ≤ runningNewLength title idx
      ∧ runningNewLength title idx ≤ (title.length : Int)
      ∧ slicePrefix title (runningNewLength title idx)
          = some (title.take (runningNewLength title idx).toNat)
      ∧ fitRunningStep title idx = some (runningStepLine idx
          (title.take (runningNewLength title idx).toNat ++ ascii "...")))
    ∧ ∃ sep content,
        PrintRunningStep title idx =
          ⟨[logInfo sep, Event.log Level.info content, logInfo sep], Ending.returned⟩ := by
  have hd := length_fmtInt_le idx hidx
  have hL := length_runningStepLine idx title
  have hwide : 50 < (runningStepLine idx title).length →
      0 ≤ runningNewLength title idx
      ∧ runningNewLength title idx ≤ (title.length : Int)
      ∧ slicePrefix title (runningNewLength title idx)
          = some (title.take (runningNewLength title idx).toNat)
      ∧ fitRunningStep title idx = some (runningStepLine idx
          (title.take (runningNewLength title idx).toNat ++ ascii "...")) := by
    intro hw
    have h0 : 0 ≤ runningNewLength title idx := by
      unfold runningNewLength
      simp only [stepRunSummaryBoxMaxWidthChars, Nat.cast_ofNat]
      omega
    have h1 : runningNewLength title idx ≤ (title.length : Int) := by
      unfold runningNewLength
      simp only [stepRunSummaryBoxMaxWidthChars, Nat.cast_ofNat]
      omega
    have h2 : slicePrefix title (runningNewLength title idx)
        = some (title.take (runningNewLength title idx).toNat) := by
      unfold slicePrefix
      rw [if_pos ⟨h0, h1⟩]
    refine ⟨h0, h1, h2, ?_⟩
    rw [fitRunningStep_wide title idx hw, h2]
    rfl
  refine ⟨hwide, ?_⟩
  by_cases hw : 50 < (runningStepLine idx title).length
  · have hf := (hwide hw).2.2.2
    exact ⟨_, _, by simp only [PrintRunningStep, hf, logInfof0]; rfl⟩
  · have hf : fitRunningStep title idx = some (runningStepLine idx title) := by
      unfold fitRunningStep
      simp only [stepRunSummaryBoxMaxWidthChars]
      rw [if_neg (by omega)]
    exact ⟨_, _, by simp only [PrintRunningStep, hf, logInfof0]; rfl⟩

/-- C13 at an input: a title of 61 bytes with the least 64-bit index, whose decimal text is 20
bytes long. -/
theorem PrintRunningStep_slice_in_range_witness :
    (50 < (runningStepLine (-9223372036854775808)
        (ascii "Run the unit tests of every module of the project, one by one")).length →
      0 ≤ runningNewLength
        (ascii "Run the unit tests of every module of the project, one by one")
        (-9223372036854775808)
      ∧ runningNewLength
          (ascii "Run the unit tests of every module of the project, one by one")
          (-9223372036854775808)
        ≤ ((ascii "Run the unit tests of every module of the project, one by one").length : Int)
      ∧ slicePrefix (ascii "Run the unit tests of every module of the project, one by one")
          (runningNewLength
            (ascii "Run the unit tests of every module of the project, one by one")
            (-9223372036854775808))
          = some ((ascii "Run the unit tests of every module of the project, one by one").take
              (runningNewLength
                (ascii "Run the unit tests of every module of the project, one by one")
                (-9223372036854775808)).toNat)
      ∧ fitRunningStep (ascii "Run the unit tests of every module of the project, one by one")
          (-9223372036854775808)
          = some (runningStepLine (-9223372036854775808)
              ((ascii "Run the unit tests of every module of the project, one by one").take
                (runningNewLength
                  (ascii "Run the unit tests of every module of the project, one by one")
                  (-9223372036854775808)).toNat ++ ascii "...")))
    ∧ ∃ sep content,
        PrintRunningStep (ascii "Run the unit tests of every module of the project, one by one")
            (-9223372036854775808) =
          ⟨[logInfo sep, Event.log Level.info content, logInfo sep], Ending.returned⟩ :=
  PrintRunningStep_slice_in_range
    (ascii "Run the unit tests of every module of the project, one by one")
    (-9223372036854775808) (by decide)

/-- C14.  Two aggregates with the same failed, failed-skippable and skipped steps and the
same number of successful steps give the same run of `PrintStepStatus`: the successful steps
count, and are not listed. -/
theorem PrintStepStatus_success_by_size (r₁ r₂ : BuildRunResultsModel)
    (hf : r₁.FailedSteps = r₂.FailedSteps)
    (hfs : r₁.FailedSkippableSteps = r₂.FailedSkippableSteps)
    (hsk : r₁.SkippedSteps = r₂.SkippedSteps)
    (hs : r₁.SuccessSteps.length = r₂.SuccessSteps.length) :
    PrintStepStatus r₁ = PrintStepStatus r₂ := by
  unfold PrintStepStatus
  simp only [hf, hfs, hsk, hs]

/-- C14 at an input: two aggregates with two successful steps of different names, and
different start times. -/
theorem PrintStepStatus_success_by_size_witness :
    PrintStepStatus ⟨0, [⟨ascii "clone", none⟩, ⟨ascii "build", none⟩],
        [⟨ascii "test", some (ascii "exit status 1")⟩], [], [⟨ascii "deploy", none⟩]⟩
      = PrintStepStatus ⟨5, [⟨ascii "fetch", none⟩, ⟨ascii "compile", none⟩],
        [⟨ascii "test", some (ascii "exit status 1")⟩], [], [⟨ascii "deploy", none⟩]⟩ :=
  PrintStepStatus_success_by_size _ _ rfl rfl rfl rfl

/-- C15.  For every start time, every clock reading and every error (given by its message),
`PrintBuildFailedFatal` makes two reports and exits the process: first the error-level report
`Build failed: ` followed by the message, then the fatal-level report of the total run time,
the clock reading minus the start time.  No path of the operation returns to the caller, the
one of the nil error included, on which the call of `err.Error()` panics. -/
theorem PrintBuildFailedFatal_reports (durationString : Int → GoString)
    (now startTime : Int) (msg : GoString) :
    PrintBuildFailedFatal durationString now startTime (some msg) =
      ⟨[Event.log Level.error (ascii "Build failed: " ++ msg),
        Event.log Level.fatal
          (ascii "Total run time: " ++ durationString (timeSub now startTime))],
        Ending.exited⟩
    ∧ ∀ err, (PrintBuildFailedFatal durationString now startTime err).ending
        ≠ Ending.returned := by
  refine ⟨rfl, fun err => ?_⟩
  cases err <;> simp [PrintBuildFailedFatal]

/-! ## Two calls with the same input -/

theorem emit_running (e : Event) (clock : Int) (written : List Event) :
    emit e ⟨clock, written, Ending.returned⟩ = ⟨clock, written ++ [e], Ending.returned⟩ :=
  rfl

theorem halt_running (s : Ending) (clock : Int) (written : List Event) :
    halt s ⟨clock, written, Ending.returned⟩ = ⟨clock, written, s⟩ :=
  rfl

theorem foldl_emit_running (stepList : List StepRunResultsModel) (clock : Int)
    (written : List Event) :
    stepList.foldl (fun v step => emit (stepStatusLine step) v)
        ⟨clock, written, Ending.returned⟩
      = ⟨clock, written ++ stepList.map stepStatusLine, Ending.returned⟩ := by
  induction stepList generalizing written with
  | nil => simp
  | cons s l ih => simp [List.foldl, emit_running, ih]

theorem callPrintStepStatusList_running (header : GoString)
    (stepList : List StepRunResultsModel) (clock : Int) (written : List Event) :
    callPrintStepStatusList header stepList ⟨clock, written, Ending.returned⟩
      = ⟨clock, written ++ (PrintStepStatusList header stepList).out, Ending.returned⟩ := by
  unfold callPrintStepStatusList PrintStepStatusList
  split
  · simp [emit_running, foldl_emit_running]
  · simp

theorem PrintStepStatusList_returns (header : GoString)
    (stepList : List StepRunResultsModel) :
    (PrintStepStatusList header stepList).ending = Ending.returned := by
  unfold PrintStepStatusList
  split <;> rfl

/-- The state after a call made while the process runs: the clock is unchanged, the events of
the operation are added after those written before, and the process ends as the operation
does.  The operation is read at the clock of the state. -/
theorem call_running (TimeToFormattedSeconds : Int → GoString → GoString)
    (durationString : Int → GoString) (c : Call) (clock : Int) (written : List Event) :
    call TimeToFormattedSeconds durationString c ⟨clock, written, Ending.returned⟩
      = ⟨clock,
         written ++ (perform TimeToFormattedSeconds durationString clock c).out,
         (perform TimeToFormattedSeconds durationString clock c).ending⟩ := by
  cases c with
  | runningWorkflow title =>
    simp [call, perform, callPrintRunningWorkflow, PrintRunningWorkflow, emit_running]
  | runningStep title idx =>
    simp only [call, perform, callPrintRunningStep, PrintRunningStep]
    cases fitRunningStep title idx <;> simp [emit_running, halt_running]
  | stepSummary title resultCode duration exitCode =>
    simp only [call, perform, callPrintStepSummary, PrintStepSummary]
    cases fitSummary title (TimeToFormattedSeconds duration (ascii " sec")) resultCode
        exitCode with
    | none => simp [halt_running]
    | some p =>
      obtain ⟨t, content⟩ := p
      simp only []
      cases summaryShown t (TimeToFormattedSeconds duration (ascii " sec")) resultCode
        exitCode <;> simp [emit_running]
  | buildFailedFatal startTime err =>
    cases err <;>
      simp [call, perform, callPrintBuildFailedFatal, PrintBuildFailedFatal, emit_running,
        halt_running]
  | summary r =>
    simp only [call, perform, callPrintSummary, PrintSummary, emit_running]
    by_cases h0 : r.SuccessSteps.length + r.FailedSteps.length
        + r.FailedSkippableSteps.length + r.SkippedSteps.length > 0
    · simp only [h0, if_true]
      by_cases h1 : r.SuccessSteps.length > 0 <;> by_cases h2 : r.FailedSteps.length > 0 <;>
        by_cases h3 : r.FailedSkippableSteps.length > 0 <;>
        by_cases h4 : r.SkippedSteps.length > 0 <;>
        simp [h1, h2, h3, h4, emit_running, halt_running]
    · simp [h0]
  | stepStatus r =>
    simp [call, perform, callPrintStepStatus, PrintStepStatus, emit_running,
      callPrintStepStatusList_running]
  | stepStatusList header stepList =>
    simp [call, perform, callPrintStepStatusList_running, PrintStepStatusList_returns]

/-- The events of an operation read at two clocks are the same exactly when the run time it
reports reads the same, and the operation ends in the same way at both. -/
theorem perform_out_eq_iff (TimeToFormattedSeconds : Int → GoString → GoString)
    (durationString : Int → GoString) (c : Call) (now₁ now₂ : Int) :
    ((perform TimeToFormattedSeconds durationString now₁ c).out
        = (perform TimeToFormattedSeconds durationString now₂ c).out
      ↔ reportedRunTime TimeToFormattedSeconds durationString now₁ c
        = reportedRunTime TimeToFormattedSeconds durationString now₂ c)
    ∧ (perform TimeToFormattedSeconds durationString now₁ c).ending
        = (perform TimeToFormattedSeconds durationString now₂ c).ending := by
  cases c with
  | runningWorkflow title => simp [perform, reportedRunTime]
  | runningStep title idx => simp [perform, reportedRunTime]
  | stepSummary title resultCode duration exitCode => simp [perform, reportedRunTime]
  | buildFailedFatal startTime err =>
    cases err <;> simp [perform, reportedRunTime, PrintBuildFailedFatal]
  | summary r =>
    simp only [perform, reportedRunTime, Option.some.injEq]
    by_cases h0 : stepTotal r = 0
    · rw [PrintSummary_of_no_steps _ _ _ h0, PrintSummary_of_no_steps _ _ _ h0]
      simp [logInfo]
    · rw [PrintSummary_of_steps _ _ _ (Nat.pos_of_ne_zero h0),
        PrintSummary_of_steps _ _ _ (Nat.pos_of_ne_zero h0)]
      simp [logInfo]
  | stepStatus r => simp [perform, reportedRunTime]
  | stepStatusList header stepList => simp [perform, reportedRunTime]

/-- C16, as amended.  Take two states of the process in which it runs, with any clock readings
and any events written before, and make the same call with the same arguments in each.  The
events that the two calls write are the same exactly when the run time that the operation
reports reads the same at both clocks: always for `PrintRunningWorkflow`, `PrintRunningStep`,
`PrintStepSummary`, `PrintStepStatus` and `PrintStepStatusList`, which report none, and for
`PrintSummary` and `PrintBuildFailedFatal` when the time since the start time has the same
text.  The two calls end in the same way, a call keeps what was written before it and adds its
events after it, and the events it adds depend on nothing that was written before.  In a
process that has ended a call changes nothing. -/
theorem call_twice_same_events (TimeToFormattedSeconds : Int → GoString → GoString)
    (durationString : Int → GoString) (c : Call) (w₁ w₂ : World)
    (h₁ : w₁.status = Ending.returned) (h₂ : w₂.status = Ending.returned) :
    (appended w₁ (call TimeToFormattedSeconds durationString c w₁)
        = appended w₂ (call TimeToFormattedSeconds durationString c w₂)
      ↔ reportedRunTime TimeToFormattedSeconds durationString w₁.clock c
        = reportedRunTime TimeToFormattedSeconds durationString w₂.clock c)
    ∧ (call TimeToFormattedSeconds durationString c w₁).status
        = (call TimeToFormattedSeconds durationString c w₂).status
    ∧ (call TimeToFormattedSeconds durationString c w₁).written
        = w₁.written ++ appended w₁ (call TimeToFormattedSeconds durationString c w₁)
    ∧ (w₁.clock = w₂.clock →
        appended w₁ (call TimeToFormattedSeconds durationString c w₁)
          = appended w₂ (call TimeToFormattedSeconds durationString c w₂))
    ∧ ∀ w : World, w.status ≠ Ending.returned →
        call TimeToFormattedSeconds durationString c w = w := by
  obtain ⟨clock₁, written₁, status₁⟩ := w₁
  obtain ⟨clock₂, written₂, status₂⟩ := w₂
  simp only at h₁ h₂
  subst h₁ h₂
  have hp := perform_out_eq_iff TimeToFormattedSeconds durationString c clock₁ clock₂
  have e₁ : appended ⟨clock₁, written₁, Ending.returned⟩
      (call TimeToFormattedSeconds durationString c ⟨clock₁, written₁, Ending.returned⟩)
      = (perform TimeToFormattedSeconds durationString clock₁ c).out := by
    rw [call_running]
    simp [appended]
  have e₂ : appended ⟨clock₂, written₂, Ending.returned⟩
      (call TimeToFormattedSeconds durationString c ⟨clock₂, written₂, Ending.returned⟩)
      = (perform TimeToFormattedSeconds durationString clock₂ c).out := by
    rw [call_running]
    simp [appended]
  refine ⟨?_, ?_, ?_, ?_, ?_⟩
  · rw [e₁, e₂]
    exact hp.1
  · rw [call_running, call_running]
    exact hp.2
  · rw [e₁, call_running]
  · intro hc
    simp only at hc
    rw [e₁, e₂, hc]
  · intro w hw
    unfold call
    split
    · rename_i hs
      exact absurd hs hw
    · rfl

/-- C16, as amended, at an input: `PrintSummary` of an aggregate with five successful steps
and one failed step that is skippable, called in a fresh process 12 seconds after the start
time and in a process that has written a line before, 12.4 seconds after the start time.  The
run time reads `12 seconds` at both calls, and both calls write the same events. -/
theorem call_twice_same_events_witness :
    ((appended ⟨12000000000, [], Ending.returned⟩
          (call secondsText nanosText (Call.summary (sampleResults 5 0 1 0))
            ⟨12000000000, [], Ending.returned⟩)
        = appended ⟨12400000000, [Event.println []], Ending.returned⟩
          (call secondsText nanosText (Call.summary (sampleResults 5 0 1 0))
            ⟨12400000000, [Event.println []], Ending.returned⟩)
      ↔ reportedRunTime secondsText nanosText 12000000000
          (Call.summary (sampleResults 5 0 1 0))
        = reportedRunTime secondsText nanosText 12400000000
          (Call.summary (sampleResults 5 0 1 0)))
     ∧ reportedRunTime secondsText nanosText 12000000000
          (Call.summary (sampleResults 5 0 1 0)) = some (ascii "12 seconds")
     ∧ reportedRunTime secondsText nanosText 12400000000
          (Call.summary (sampleResults 5 0 1 0)) = some (ascii "12 seconds")
     ∧ appended ⟨12000000000, [], Ending.returned⟩
          (call secondsText nanosText (Call.summary (sampleResults 5 0 1 0))
            ⟨12000000000, [], Ending.returned⟩)
        = appended ⟨12400000000, [Event.println []], Ending.returned⟩
          (call secondsText nanosText (Call.summary (sampleResults 5 0 1 0))
            ⟨12400000000, [Event.println []], Ending.returned⟩)) :=
  ⟨(call_twice_same_events secondsText nanosText (Call.summary (sampleResults 5 0 1 0))
      ⟨12000000000, [], Ending.returned⟩ ⟨12400000000, [Event.println []], Ending.returned⟩
      rfl rfl).1,
    by decide, by decide, by decide⟩

/-- C16 fails as stated: `PrintSummary` is called twice in one process with the same
aggregate, 12 seconds after its start time and, the first call having returned, one second
later.  The first call writes `Total run time: 12 seconds` and the second call writes
`Total run time: 13 seconds`: the two outputs differ. -/
theorem PrintSummary_second_call_differs :
    (call secondsText nanosText (Call.summary (sampleResults 5 0 1 0))
        ⟨12000000000, [], Ending.returned⟩).status = Ending.returned
    ∧ logInfo (ascii "Total run time: 12 seconds")
        ∈ appended ⟨12000000000, [], Ending.returned⟩
            (call secondsText nanosText (Call.summary (sampleResults 5 0 1 0))
              ⟨12000000000, [], Ending.returned⟩)
    ∧ logInfo (ascii "Total run time: 13 seconds")
        ∈ appended
            (advance 1000000000
              (call secondsText nanosText (Call.summary (sampleResults 5 0 1 0))
                ⟨12000000000, [], Ending.returned⟩))
            (call secondsText nanosText (Call.summary (sampleResults 5 0 1 0))
              (advance 1000000000
                (call secondsText nanosText (Call.summary (sampleResults 5 0 1 0))
                  ⟨12000000000, [], Ending.returned⟩)))
    ∧ appended ⟨12000000000, [], Ending.returned⟩
          (call secondsText nanosText (Call.summary (sampleResults 5 0 1 0))
            ⟨12000000000, [], Ending.returned⟩)
        ≠ appended
            (advance 1000000000
              (call secondsText nanosText (Call.summary (sampleResults 5 0 1 0))
                ⟨12000000000, [], Ending.returned⟩))
            (call secondsText nanosText (Call.summary (sampleResults 5 0 1 0))
              (advance 1000000000
                (call secondsText nanosText (Call.summary (sampleResults 5 0 1 0))
                  ⟨12000000000, [], Ending.returned⟩))) := by
  decide

/-! ## PrintStepSummary: the bytes of the title that are kept -/

theorem length_summaryMeasured_nil (runTime : GoString) (resultCode exitCode : Int) :
    ((summaryMeasured [] runTime resultCode exitCode).length : Int) =
      if resultCode = StepRunResultCodeFailed ∨ resultCode = StepRunResultCodeFailedSkippable
      then (runTime.length : Int) + ((fmtInt exitCode).length : Int) + 25
      else (runTime.length : Int) + 11 := by
  unfold summaryMeasured
  split
  · simp [summaryPlaceholderExit, ascii]
    omega
  · simp [summaryPlaceholder, ascii]
    omega

/-- The width check of `PrintStepSummary` on a content wider than the box: the slice
expression is taken at the new title length. -/
theorem fitSummary_at_wide (title runTime : GoString) (resultCode exitCode : Int)
    (hwide : 50 < (summaryMeasured title runTime resultCode exitCode).length) :
    fitSummary title runTime resultCode exitCode =
      (slicePrefix title (summaryNewLength title runTime resultCode exitCode)).map
        (fun t => (t ++ ascii "...",
          summaryMeasured (t ++ ascii "...") runTime resultCode exitCode)) := by
  unfold fitSummary summaryNewLength
  simp only [stepRunSummaryBoxMaxWidthChars]
  rw [if_pos (by exact hwide)]

/-- C17.  When the placeholder content of `PrintStepSummary` is wider than 50 bytes, the new
title length does not depend on the title: it is `36 - len(runtime)`, and for the result codes
Failed and FailedSkippable `22 - len(runtime) - len(decimal exitCode)`.  The slice
`title[0:newLength]` is in range exactly when this number is not negative; then that many
bytes of the title are kept before the ellipsis, and otherwise the operation panics with no
output.  It does for the result code Failed with a run time of 12 seconds and the exit code
10000000000000000. -/
theorem PrintStepSummary_kept_bytes
    (TimeToFormattedSeconds : Int → GoString → GoString) (title : GoString)
    (resultCode duration exitCode : Int)
    (hwide : 50 < (summaryMeasured title (TimeToFormattedSeconds duration (ascii " sec"))
      resultCode exitCode).length) :
    summaryNewLength title (TimeToFormattedSeconds duration (ascii " sec")) resultCode exitCode
      = (if resultCode = StepRunResultCodeFailed
            ∨ resultCode = StepRunResultCodeFailedSkippable
         then 22 - ((TimeToFormattedSeconds duration (ascii " sec")).length : Int)
            - ((fmtInt exitCode).length : Int)
         else 36 - ((TimeToFormattedSeconds duration (ascii " sec")).length : Int))
    ∧ (slicePrefix title (summaryNewLength title
          (TimeToFormattedSeconds duration (ascii " sec")) resultCode exitCode) ≠ none
        ↔ 0 ≤ summaryNewLength title (TimeToFormattedSeconds duration (ascii " sec"))
            resultCode exitCode)
    ∧ (0 ≤ summaryNewLength title (TimeToFormattedSeconds duration (ascii " sec"))
          resultCode exitCode →
        ∃ kept, kept <+: title
          ∧ (kept.length : Int) = summaryNewLength title
              (TimeToFormattedSeconds duration (ascii " sec")) resultCode exitCode
          ∧ fitSummary title (TimeToFormattedSeconds duration (ascii " sec")) resultCode
              exitCode
            = some (kept ++ ascii "...", summaryMeasured (kept ++ ascii "...")
                (TimeToFormattedSeconds duration (ascii " sec")) resultCode exitCode))
    ∧ (summaryNewLength title (TimeToFormattedSeconds duration (ascii " sec"))
          resultCode exitCode < 0 →
        PrintStepSummary TimeToFormattedSeconds title resultCode duration exitCode
          = ⟨[], Ending.panicked⟩)
    ∧ PrintStepSummary secondsText (ascii "Deploy") StepRunResultCodeFailed 12000000000
          10000000000000000 = ⟨[], Ending.panicked⟩ := by
  have hL := length_summaryMeasured title (TimeToFormattedSeconds duration (ascii " sec"))
    resultCode exitCode
  have hB := length_summaryMeasured_nil (TimeToFormattedSeconds duration (ascii " sec"))
    resultCode exitCode
  have hat := fitSummary_at_wide title (TimeToFormattedSeconds duration (ascii " sec"))
    resultCode exitCode hwide
  have hformula : summaryNewLength title (TimeToFormattedSeconds duration (ascii " sec"))
      resultCode exitCode
      = (if resultCode = StepRunResultCodeFailed
            ∨ resultCode = StepRunResultCodeFailedSkippable
         then 22 - ((TimeToFormattedSeconds duration (ascii " sec")).length : Int)
            - ((fmtInt exitCode).length : Int)
         else 36 - ((TimeToFormattedSeconds duration (ascii " sec")).length : Int)) := by
    unfold summaryNewLength
    simp only [stepRunSummaryBoxMaxWidthChars, Nat.cast_ofNat]
    split at hB <;> rename_i hc
    · rw [if_pos hc]
      omega
    · rw [if_neg hc]
      omega
  have hle : summaryNewLength title (TimeToFormattedSeconds duration (ascii " sec"))
      resultCode exitCode ≤ (title.length : Int) := by
    unfold summaryNewLength
    simp only [stepRunSummaryBoxMaxWidthChars, Nat.cast_ofNat]
    omega
  refine ⟨hformula, ?_, ?_, ?_, by decide⟩
  · unfold slicePrefix
    constructor
    · intro h
      by_contra hneg
      rw [if_neg (fun hc => hneg hc.1)] at h
      exact h rfl
    · intro h
      rw [if_pos ⟨h, hle⟩]
      exact Option.some_ne_none _
  · intro h0
    refine ⟨title.take (summaryNewLength title
      (TimeToFormattedSeconds duration (ascii " sec")) resultCode exitCode).toNat,
      List.take_prefix _ _, ?_, ?_⟩
    · rw [List.length_take]
      omega
    · rw [hat]
      unfold slicePrefix
      rw [if_pos ⟨h0, hle⟩]
      rfl
  · intro hneg
    have hnone : fitSummary title (TimeToFormattedSeconds duration (ascii " sec"))
        resultCode exitCode = none := by
      rw [hat]
      unfold slicePrefix
      rw [if_neg (fun hc => by omega)]
      rfl
    simp only [PrintStepSummary, hnone]

/-- C17 at an input: the result code Failed with a title of 49 bytes, a run time of 12
seconds and exit code 2. -/
theorem PrintStepSummary_kept_bytes_witness :
    summaryNewLength (ascii "Run the unit tests of every module of the project")
        (secondsText 12000000000 (ascii " sec")) 1 2
      = (if (1 : Int) = StepRunResultCodeFailed ∨ (1 : Int) = StepRunResultCodeFailedSkippable
         then 22 - ((secondsText 12000000000 (ascii " sec")).length : Int)
            - ((fmtInt 2).length : Int)
         else 36 - ((secondsText 12000000000 (ascii " sec")).length : Int))
    ∧ (slicePrefix (ascii "Run the unit tests of every module of the project")
          (summaryNewLength (ascii "Run the unit tests of every module of the project")
            (secondsText 12000000000 (ascii " sec")) 1 2) ≠ none
        ↔ 0 ≤ summaryNewLength (ascii "Run the unit tests of every module of the project")
            (secondsText 12000000000 (ascii " sec")) 1 2)
    ∧ (0 ≤ summaryNewLength (ascii "Run the unit tests of every module of the project")
          (secondsText 12000000000 (ascii " sec")) 1 2 →
        ∃ kept, kept <+: ascii "Run the unit tests of every module of the project"
          ∧ (kept.length : Int) = summaryNewLength
              (ascii "Run the unit tests of every module of the project")
              (secondsText 12000000000 (ascii " sec")) 1 2
          ∧ fitSummary (ascii "Run the unit tests of every module of the project")
              (secondsText 12000000000 (ascii " sec")) 1 2
            = some (kept ++ ascii "...", summaryMeasured (kept ++ ascii "...")
                (secondsText 12000000000 (ascii " sec")) 1 2))
    ∧ (summaryNewLength (ascii "Run the unit tests of every module of the project")
          (secondsText 12000000000 (ascii " sec")) 1 2 < 0 →
        PrintStepSummary secondsText
            (ascii "Run the unit tests of every module of the project") 1 12000000000 2
          = ⟨[], Ending.panicked⟩)
    ∧ PrintStepSummary secondsText (ascii "Deploy") StepRunResultCodeFailed 12000000000
          10000000000000000 = ⟨[], Ending.panicked⟩ :=
  PrintStepSummary_kept_bytes secondsText
    (ascii "Run the unit tests of every module of the project") 1 12000000000 2 (by decide)

/-! ## PrintStepSummary: the width of the separator -/

/-- C18, as amended.  For a title and a formatted duration of plain text (ASCII bytes, none
of them ESC or a percent sign) and a recognised result code, `PrintStepSummary` either panics
in the slice expression, with no output, or returns after exactly four events, a separator,
the content line, the same separator and a blank line, and the number of dashes of the
separator is the number of characters of the content line once its colour sequences are
removed. -/
theorem PrintStepSummary_separator_width
    (TimeToFormattedSeconds : Int → GoString → GoString) (title : GoString)
    (resultCode duration exitCode : Int)
    (hcode : 0 ≤ resultCode ∧ resultCode ≤ 4)
    (htitle : plainText title)
    (hrun : plainText (TimeToFormattedSeconds duration (ascii " sec"))) :
    PrintStepSummary TimeToFormattedSeconds title resultCode duration exitCode
        = ⟨[], Ending.panicked⟩
    ∨ ∃ n line,
        PrintStepSummary TimeToFormattedSeconds title resultCode duration exitCode =
          ⟨[logInfo (dashes n), logInfo line, logInfo (dashes n), Event.println []],
            Ending.returned⟩
        ∧ runeCount (stripColor line) = n := by
  rcases fitSummary_cases title (TimeToFormattedSeconds duration (ascii " sec"))
    resultCode exitCode with hnone | ⟨t, ht, hsome⟩
  · left
    simp only [PrintStepSummary, hnone]
  · right
    have hT : plainText t := by
      rcases ht with rfl | ⟨k, rfl⟩
      · exact htitle
      · exact plainText_append (plainText_take htitle k) (by decide)
    obtain ⟨line, hshown, hpct, hstrip⟩ :=
      summaryShown_plain t (TimeToFormattedSeconds duration (ascii " sec")) resultCode
        exitCode hcode hT hrun
    refine ⟨(summaryMeasured t (TimeToFormattedSeconds duration (ascii " sec")) resultCode
      exitCode).length, line, ?_, ?_⟩
    · simp only [PrintStepSummary, hsome, hshown, logInfof0, logInfo,
        Sprintf0_of_notPct line hpct]
    · rw [hstrip, runeCount_summaryUncoloured _ _ _ _ hT hrun]

/-- C18, as amended, at an input: the title `Run the unit tests` with the result code
Skipped and a run time of 12 seconds. -/
theorem PrintStepSummary_separator_width_witness :
    PrintStepSummary secondsText (ascii "Run the unit tests") 3 12000000000 0
        = ⟨[], Ending.panicked⟩
    ∨ ∃ n line,
        PrintStepSummary secondsText (ascii "Run the unit tests") 3 12000000000 0 =
          ⟨[logInfo (dashes n), logInfo line, logInfo (dashes n), Event.println []],
            Ending.returned⟩
        ∧ runeCount (stripColor line) = n :=
  PrintStepSummary_separator_width secondsText (ascii "Run the unit tests") 3 12000000000 0
    (by decide) (by decide) (by decide)

/-- C18 fails as stated: the ASCII title `ESC[1mDeployESC[0m`, the word Deploy between a
bold and a reset sequence, is measured with its two sequences, which are 8 bytes long.  With
the result code Success and a run time of 12 seconds the separators are 31 dashes, and the
content line emitted is, with its colour sequences removed, 23 characters wide. -/
theorem PrintStepSummary_title_with_escape :
    (esc :: ascii "[1mDeploy" ++ esc :: ascii "[0m").all isAscii = true
    ∧ PrintStepSummary secondsText (esc :: ascii "[1mDeploy" ++ esc :: ascii "[0m")
        StepRunResultCodeSuccess 12000000000 0 =
      ⟨[logInfo (dashes 31),
        logInfo (summaryLine iconSuccess
          (Green (esc :: ascii "[1mDeploy" ++ esc :: ascii "[0m")) (ascii "12 sec")),
        logInfo (dashes 31), Event.println []], Ending.returned⟩
    ∧ stripColor (summaryLine iconSuccess
        (Green (esc :: ascii "[1mDeploy" ++ esc :: ascii "[0m")) (ascii "12 sec"))
        = summaryLine iconSuccess (ascii "Deploy") (ascii "12 sec")
    ∧ runeCount (stripColor (summaryLine iconSuccess
        (Green (esc :: ascii "[1mDeploy" ++ esc :: ascii "[0m")) (ascii "12 sec"))) = 23 := by
  decide

end Bitrise
